import Mathlib

/-!
# Rtcr capability ledgers: the intercepting Pd session, its root, and the Rm session

Shallow embedding of `include/rtcr/intercept/pd_session.{h,cc}`, of
`rtcr/intercept/rm_session.h`, of `ckpt/ram_session_component.h` and of
`rtcr/offline_storage/stored_attached_region_info.h`, together with the list
elements they manage, followed by the properties of the ledger discipline.

Conventions of the embedding

* A `Genode::List<T>` is the Lean list of its elements from `first()` to the
  tail.  A pointer to a list element is the position of that element.  Where an
  element has to be told apart across calls (the sessions of the Pd root), the
  list is the list of the addresses of its elements.
* The connection `_parent_pd` to the real Pd service is not part of the
  program.  Every call made on it is recorded as an event of the component,
  and what the service answers is an argument of the intercepting method.
* `bool &_bootstrap_phase` refers to a flag owned by the orchestrator; a
  method that reads it takes the value the flag has during the call.
* `new (_md_alloc) T(...)` is taken to succeed; `Genode::log` output under
  `verbose_debug` is not recorded.
* Functions of the Genode library on argument strings are a parameter
  (`Genode_util`).
-/

namespace Rtcr

/-! ## Genode base types -/

/-- Genode capability (`Genode::Native_capability`, `Genode::Capability<T>`):
`local_name` is the value of `local_name()`, the badge used as ledger key;
`dst` stands for the rest of the reference. -/
structure Capability where
  local_name : Int
  dst : Nat
deriving DecidableEq, Repr

/-- C++ exception raised by the real service.  The intercepting methods contain
no `try`/`catch`, so only its identity matters. -/
structure Exception where
  code : Nat
deriving DecidableEq, Repr

/-- Values of `Genode::Cache_attribute`. -/
inductive Cache_attribute where
  | CACHED
  | WRITE_COMBINED
  | UNCACHED
deriving DecidableEq, Repr

/-- Outcome of a call that either returns a value or throws. -/
inductive Outcome (α : Type) where
  | returned (value : α)
  | thrown (e : Exception)
deriving DecidableEq, Repr

/-! ## `Genode::List` (util/list.h) -/

/-- `List::first()`: pointer to the first element, null for the empty list. -/
def Genode.List.first {α : Type} (l : List α) : Option Nat :=
  match l with
  | [] => none
  | _ :: _ => some 0

/-- `List::insert(le)` with the default `at = 0`: the element becomes the first. -/
def Genode.List.insert {α : Type} (l : List α) (le : α) : List α :=
  le :: l

/-- `List::remove(le)`: unlink the element `le` points to; the other elements keep
their order.  A pointer to no element of the list leaves the list as it is. -/
def Genode.List.remove {α : Type} (l : List α) (le : Nat) : List α :=
  l.eraseIdx le

/-- Lookup shape shared by the list elements of the repository
(`Pd_session_component::find_by_badge`, `Region_map_info::find_by_cap`,
`Rm_session_info::find_by_ptr`, `Thread_info::find_by_cap`):
`if (hit(this)) return this; T *n = next(); return n ? n->find(..) : 0;`.
The element the method is called on is the head of `this_and_rest`, `pos` is its
position in the list, the result is the position of the element returned. -/
def find_from {α : Type} (hit : α → Bool) (this_and_rest : List α) (pos : Nat) : Option Nat :=
  match this_and_rest with
  | [] => none
  | this :: next => if hit this then some pos else find_from hit next (pos + 1)

/-! ## Ledger entries (online_storage) -/

/-- Modelled from the spec: `online_storage/signal_source_info.h` is not part of
the sources.  Fields follow the constructor call
`Signal_source_info(result_cap, _bootstrap_phase)`; both are immutable. -/
structure Signal_source_info where
  cap : Capability
  bootstrapped : Bool
deriving DecidableEq, Repr

/-- Modelled from the spec: `online_storage/signal_context_info.h` is not part of
the sources.  Fields follow the constructor call
`Signal_context_info(result_cap, source, imprint, _bootstrap_phase)`. -/
structure Signal_context_info where
  cap : Capability
  source : Capability
  imprint : Nat
  bootstrapped : Bool
deriving DecidableEq, Repr

/-- Modelled from the spec: `online_storage/native_capability_info.h` is not part
of the sources.  Fields follow the constructor call
`Native_capability_info(result_cap, ep, _bootstrap_phase)`. -/
structure Native_capability_info where
  cap : Capability
  ep : Capability
  bootstrapped : Bool
deriving DecidableEq, Repr

/-- Modelled from the spec: `Signal_source_info::find_by_badge` is not part of the
sources; "find by h" is the first element, from this one on, whose capability has
the given badge, in the shape of the lookups that are in the sources. -/
def Signal_source_info.find_by_badge (this_and_rest : List Signal_source_info) (pos : Nat)
    (badge : Int) : Option Nat :=
  find_from (fun info => badge == info.cap.local_name) this_and_rest pos

/-- Modelled from the spec: `Signal_context_info::find_by_badge` is not part of the
sources; same lookup as for signal sources. -/
def Signal_context_info.find_by_badge (this_and_rest : List Signal_context_info) (pos : Nat)
    (badge : Int) : Option Nat :=
  find_from (fun info => badge == info.cap.local_name) this_and_rest pos

/-- Modelled from the spec: `Native_capability_info::find_by_native_badge` is not
part of the sources; same lookup as for signal sources. -/
def Native_capability_info.find_by_native_badge (this_and_rest : List Native_capability_info)
    (pos : Nat) (badge : Int) : Option Nat :=
  find_from (fun info => badge == info.cap.local_name) this_and_rest pos

/-- Attachment record.  Fields are the ones `Stored_attached_region_info`
reads from it (`attached_ds_cap`, `size`, `offset`, `rel_addr`, `executable`,
`bootstrapped`). -/
structure Attached_region_info where
  attached_ds_cap : Capability
  size : Nat
  offset : Int
  rel_addr : Nat
  executable : Bool
  bootstrapped : Bool
deriving DecidableEq, Repr

/-- Modelled from the spec: `online_storage/pd_session_info.h` is not part of the
sources.  The three ledgers and `upgrade_args` are the members `pd_session.cc`
uses; the locks are represented by the lock events of the component. -/
structure Pd_session_info where
  signal_sources : List Signal_source_info
  signal_contexts : List Signal_context_info
  native_caps : List Native_capability_info
  upgrade_args : String
deriving DecidableEq, Repr

/-- Modelled from the spec: `online_storage/region_map_info.h` is not part of the
sources.  State of one region map: its ordered list of attachments. -/
structure Region_map_info where
  attached_regions : List Attached_region_info
deriving DecidableEq, Repr

/-! ## Region map component (region_map_component.h) -/

/-- Members of `Region_map_component` that the Pd session reads: `cap` is the
capability of the RPC object itself (`Rpc_object<Region_map>::cap()`),
`_parent_region_map` the wrapped region map of the parent (`parent_cap()`). -/
structure Region_map_component where
  cap : Capability
  _parent_region_map : Capability
  _parent_state : Region_map_info
deriving DecidableEq, Repr

/-- `Region_map_component::parent_cap()`. -/
def Region_map_component.parent_cap (self : Region_map_component) : Capability :=
  self._parent_region_map

/-! ## Pd session component (pd_session.h, pd_session.cc) -/

/-- Calls of the Pd session interface as made on `_parent_pd`. -/
inductive Pd_call where
  | alloc_signal_source
  | free_signal_source (cap : Capability)
  | alloc_context (source : Capability) (imprint : Nat)
  | free_context (cap : Capability)
  | alloc_rpc_cap (ep : Capability)
  | free_rpc_cap (cap : Capability)
  | ref_account (cap : Capability)
  | transfer_cap_quota (cap : Capability) (quota : Nat)
  | transfer_ram_quota (cap : Capability) (quota : Nat)
  | cap_quota
  | used_caps
  | ram_quota
  | used_ram
  | alloc (size : Nat) (attr : Cache_attribute)
  | free (ram_cap : Capability)
  | dataspace_size (cap : Capability)
  | native_pd
deriving DecidableEq, Repr

/-- The three ledgers of `Pd_session_info`, each with a lock of its own. -/
inductive Ledger where
  | signal_sources
  | signal_contexts
  | native_caps
deriving DecidableEq, Repr

/-- Effects of a method of the Pd session component, in program order. -/
inductive Event where
  /-- a call on `_parent_pd` -/
  | forward (call : Pd_call)
  /-- construction of the `Genode::Lock::Guard` of a ledger -/
  | lock (l : Ledger)
  /-- destruction of the guard at the end of its scope -/
  | unlock (l : Ledger)
  /-- `first()` followed by the `find_by_*` walk -/
  | lookup (l : Ledger)
  /-- `insert` of a new list element -/
  | insert (l : Ledger)
  /-- `remove` and `destroy` of a list element -/
  | remove (l : Ledger)
  /-- `Genode::error("No list element found!")` -/
  | error
deriving DecidableEq, Repr

/-- State of a `Pd_session_component`: the members the methods of
`pd_session.cc` read or write, the capability of the session object (`cap()`),
and the events its methods have produced so far. -/
structure Pd_session_component where
  cap : Capability
  _parent_state : Pd_session_info
  _address_space : Region_map_component
  _stack_area : Region_map_component
  _linker_area : Region_map_component
  events : List Event
deriving DecidableEq, Repr

namespace Pd_session_component

/-- Append one event to the history of the component. -/
def emit (self : Pd_session_component) (e : Event) : Pd_session_component :=
  { self with events := self.events ++ [e] }

/-- State after the constructor: `_parent_state("", _bootstrap_phase)` starts with
empty ledgers; the session capability and the three region map components are
created by the entrypoint and given here.  The flag that `_bootstrap_phase`
refers to is not part of this state, see `Monitored_pd`. -/
def init (cap : Capability) (address_space stack_area linker_area : Region_map_component) :
    Pd_session_component :=
  { cap := cap
    _parent_state :=
      { signal_sources := [], signal_contexts := [], native_caps := [], upgrade_args := "" }
    _address_space := address_space
    _stack_area := stack_area
    _linker_area := linker_area
    events := [] }

/-- `Pd_session_component::alloc_signal_source()`, pd_session.cc:89-103. -/
def alloc_signal_source (self : Pd_session_component) (_bootstrap_phase : Bool)
    (parent_answer : Outcome Capability) : Outcome Capability × Pd_session_component :=
  -- auto result_cap = _parent_pd.alloc_signal_source();
  let self := self.emit (.forward .alloc_signal_source)
  match parent_answer with
  | .thrown e => (.thrown e, self)
  | .returned result_cap =>
    -- new (_md_alloc) Signal_source_info(result_cap, _bootstrap_phase)
    let new_ss_info : Signal_source_info := { cap := result_cap, bootstrapped := _bootstrap_phase }
    -- Genode::Lock::Guard guard(_parent_state.signal_sources_lock);
    let self := self.emit (.lock .signal_sources)
    -- _parent_state.signal_sources.insert(new_ss_info);
    let self := { self with _parent_state.signal_sources :=
                    Genode.List.insert self._parent_state.signal_sources new_ss_info }
    let self := self.emit (.insert .signal_sources)
    -- return result_cap;
    (.returned result_cap, self.emit (.unlock .signal_sources))

/-- `Pd_session_component::free_signal_source(cap)`, pd_session.cc:106-129. -/
def free_signal_source (self : Pd_session_component) (cap : Capability) : Pd_session_component :=
  -- Genode::Lock::Guard guard(_parent_state.signal_sources_lock);
  let self := self.emit (.lock .signal_sources)
  -- ss_info = signal_sources.first(); if(ss_info) ss_info = ss_info->find_by_badge(cap.local_name());
  let ss_info : Option Nat :=
    match Genode.List.first self._parent_state.signal_sources with
    | none => none
    | some first =>
      Signal_source_info.find_by_badge (self._parent_state.signal_sources.drop first) first
        cap.local_name
  let self := self.emit (.lookup .signal_sources)
  match ss_info with
  | some ss_info =>
    -- _parent_state.signal_sources.remove(ss_info); Genode::destroy(_md_alloc, ss_info);
    let self := { self with _parent_state.signal_sources :=
                    Genode.List.remove self._parent_state.signal_sources ss_info }
    let self := self.emit (.remove .signal_sources)
    -- _parent_pd.free_signal_source(cap);
    let self := self.emit (.forward (.free_signal_source cap))
    self.emit (.unlock .signal_sources)
  | none =>
    -- Genode::error("No list element found!");
    let self := self.emit .error
    self.emit (.unlock .signal_sources)

/-- `Pd_session_component::alloc_context(source, imprint)`, pd_session.cc:132-147. -/
def alloc_context (self : Pd_session_component) (_bootstrap_phase : Bool)
    (source : Capability) (imprint : Nat) (parent_answer : Outcome Capability) :
    Outcome Capability × Pd_session_component :=
  -- auto result_cap = _parent_pd.alloc_context(source, imprint);
  let self := self.emit (.forward (.alloc_context source imprint))
  match parent_answer with
  | .thrown e => (.thrown e, self)
  | .returned result_cap =>
    -- new (_md_alloc) Signal_context_info(result_cap, source, imprint, _bootstrap_phase)
    let new_sc_info : Signal_context_info :=
      { cap := result_cap, source := source, imprint := imprint, bootstrapped := _bootstrap_phase }
    -- Genode::Lock::Guard guard(_parent_state.signal_contexts_lock);
    let self := self.emit (.lock .signal_contexts)
    -- _parent_state.signal_contexts.insert(new_sc_info);
    let self := { self with _parent_state.signal_contexts :=
                    Genode.List.insert self._parent_state.signal_contexts new_sc_info }
    let self := self.emit (.insert .signal_contexts)
    -- return result_cap;
    (.returned result_cap, self.emit (.unlock .signal_contexts))

/-- `Pd_session_component::free_context(cap)`, pd_session.cc:150-173. -/
def free_context (self : Pd_session_component) (cap : Capability) : Pd_session_component :=
  -- Genode::Lock::Guard guard(_parent_state.signal_contexts_lock);
  let self := self.emit (.lock .signal_contexts)
  -- sc_info = signal_contexts.first(); if(sc_info) sc_info = sc_info->find_by_badge(cap.local_name());
  let sc_info : Option Nat :=
    match Genode.List.first self._parent_state.signal_contexts with
    | none => none
    | some first =>
      Signal_context_info.find_by_badge (self._parent_state.signal_contexts.drop first) first
        cap.local_name
  let self := self.emit (.lookup .signal_contexts)
  match sc_info with
  | some sc_info =>
    -- _parent_state.signal_contexts.remove(sc_info); Genode::destroy(_md_alloc, sc_info);
    let self := { self with _parent_state.signal_contexts :=
                    Genode.List.remove self._parent_state.signal_contexts sc_info }
    let self := self.emit (.remove .signal_contexts)
    -- _parent_pd.free_context(cap);
    let self := self.emit (.forward (.free_context cap))
    self.emit (.unlock .signal_contexts)
  | none =>
    -- Genode::error("No list element found!");
    let self := self.emit .error
    self.emit (.unlock .signal_contexts)

/-- `Pd_session_component::alloc_rpc_cap(ep)`, pd_session.cc:184-198. -/
def alloc_rpc_cap (self : Pd_session_component) (_bootstrap_phase : Bool)
    (ep : Capability) (parent_answer : Outcome Capability) :
    Outcome Capability × Pd_session_component :=
  -- auto result_cap = _parent_pd.alloc_rpc_cap(ep);
  let self := self.emit (.forward (.alloc_rpc_cap ep))
  match parent_answer with
  | .thrown e => (.thrown e, self)
  | .returned result_cap =>
    -- new (_md_alloc) Native_capability_info(result_cap, ep, _bootstrap_phase)
    let new_nc_info : Native_capability_info :=
      { cap := result_cap, ep := ep, bootstrapped := _bootstrap_phase }
    -- Genode::Lock::Guard guard(_parent_state.native_caps_lock);
    let self := self.emit (.lock .native_caps)
    -- _parent_state.native_caps.insert(new_nc_info);
    let self := { self with _parent_state.native_caps :=
                    Genode.List.insert self._parent_state.native_caps new_nc_info }
    let self := self.emit (.insert .native_caps)
    -- return result_cap;
    (.returned result_cap, self.emit (.unlock .native_caps))

/-- `Pd_session_component::free_rpc_cap(cap)`, pd_session.cc:201-224. -/
def free_rpc_cap (self : Pd_session_component) (cap : Capability) : Pd_session_component :=
  -- Genode::Lock::Guard guard(_parent_state.native_caps_lock);
  let self := self.emit (.lock .native_caps)
  -- nc_info = native_caps.first(); if(nc_info) nc_info = nc_info->find_by_native_badge(cap.local_name());
  let nc_info : Option Nat :=
    match Genode.List.first self._parent_state.native_caps with
    | none => none
    | some first =>
      Native_capability_info.find_by_native_badge (self._parent_state.native_caps.drop first) first
        cap.local_name
  let self := self.emit (.lookup .native_caps)
  match nc_info with
  | some nc_info =>
    -- _parent_state.native_caps.remove(nc_info); Genode::destroy(_md_alloc, nc_info);
    let self := { self with _parent_state.native_caps :=
                    Genode.List.remove self._parent_state.native_caps nc_info }
    let self := self.emit (.remove .native_caps)
    -- _parent_pd.free_rpc_cap(cap);
    let self := self.emit (.forward (.free_rpc_cap cap))
    self.emit (.unlock .native_caps)
  | none =>
    -- Genode::error("No list element found!");
    let self := self.emit .error
    self.emit (.unlock .native_caps)

/-- `Pd_session_component::address_space()`, pd_session.cc:227-236. -/
def address_space (self : Pd_session_component) : Capability × Pd_session_component :=
  -- auto result = _address_space.Rpc_object<Genode::Region_map>::cap();
  let result := self._address_space.cap
  (result, self)

/-- `Pd_session_component::stack_area()`, pd_session.cc:239-248. -/
def stack_area (self : Pd_session_component) : Capability × Pd_session_component :=
  -- auto result = _stack_area.Rpc_object<Genode::Region_map>::cap();
  let result := self._stack_area.cap
  (result, self)

/-- `Pd_session_component::linker_area()`, pd_session.cc:251-260. -/
def linker_area (self : Pd_session_component) : Capability × Pd_session_component :=
  -- auto result = _linker_area.Rpc_object<Genode::Region_map>::cap();
  let result := self._linker_area.cap
  (result, self)

/-- A method whose body is the single call `call` on `_parent_pd`, the answer
being returned (or the exception passed on) as it is. -/
def forward_only {α : Type} (self : Pd_session_component) (call : Pd_call)
    (parent_answer : Outcome α) : Outcome α × Pd_session_component :=
  (parent_answer, self.emit (.forward call))

/-- `Pd_session_component::ref_account(cap)`, pd_session.cc:262-265. -/
def ref_account (self : Pd_session_component) (cap : Capability)
    (parent_answer : Outcome Unit) : Outcome Unit × Pd_session_component :=
  -- _parent_pd.ref_account(cap);
  self.forward_only (.ref_account cap) parent_answer

/-- `Pd_session_component::transfer_quota(cap, Cap_quota)`, pd_session.cc:267-273.
The second `Genode::log` line queries `_parent_pd.cap_quota()` before the
transfer; `logged_quota` is what the real service answers to that query.  The
value is only printed, a failure ends the method before the transfer. -/
def transfer_quota_cap (self : Pd_session_component) (cap : Capability) (quota : Nat)
    (logged_quota : Outcome Nat) (parent_answer : Outcome Unit) :
    Outcome Unit × Pd_session_component :=
  -- Genode::log("intercepted cap quota ",_parent_pd.cap_quota().value);
  let self := self.emit (.forward .cap_quota)
  match logged_quota with
  | .thrown e => (.thrown e, self)
  | .returned _ =>
    -- _parent_pd.transfer_quota(cap, quota);
    self.forward_only (.transfer_cap_quota cap quota) parent_answer

/-- `Pd_session_component::transfer_quota(cap, Ram_quota)`, pd_session.cc:275-280.
The second `Genode::log` line queries `_parent_pd.ram_quota()` before the
transfer; `logged_quota` is what the real service answers to that query.  The
value is only printed, a failure ends the method before the transfer. -/
def transfer_quota_ram (self : Pd_session_component) (cap : Capability) (quota : Nat)
    (logged_quota : Outcome Nat) (parent_answer : Outcome Unit) :
    Outcome Unit × Pd_session_component :=
  -- Genode::log("intercepted ram quota ",_parent_pd.ram_quota().value);
  let self := self.emit (.forward .ram_quota)
  match logged_quota with
  | .thrown e => (.thrown e, self)
  | .returned _ =>
    -- _parent_pd.transfer_quota(cap, quota);
    self.forward_only (.transfer_ram_quota cap quota) parent_answer

/-- `Pd_session_component::cap_quota()`, pd_session.cc:282-287. -/
def cap_quota (self : Pd_session_component) (parent_answer : Outcome Nat) :
    Outcome Nat × Pd_session_component :=
  self.forward_only .cap_quota parent_answer

/-- `Pd_session_component::used_caps()`, pd_session.cc:289-294. -/
def used_caps (self : Pd_session_component) (parent_answer : Outcome Nat) :
    Outcome Nat × Pd_session_component :=
  self.forward_only .used_caps parent_answer

/-- `Pd_session_component::ram_quota()`, pd_session.cc:296-301. -/
def ram_quota (self : Pd_session_component) (parent_answer : Outcome Nat) :
    Outcome Nat × Pd_session_component :=
  self.forward_only .ram_quota parent_answer

/-- `Pd_session_component::used_ram()`, pd_session.cc:303-308. -/
def used_ram (self : Pd_session_component) (parent_answer : Outcome Nat) :
    Outcome Nat × Pd_session_component :=
  self.forward_only .used_ram parent_answer

/-- `Pd_session_component::alloc(size, attr)`, pd_session.cc:310-315. -/
def alloc (self : Pd_session_component) (size : Nat) (attr : Cache_attribute)
    (parent_answer : Outcome Capability) : Outcome Capability × Pd_session_component :=
  self.forward_only (.alloc size attr) parent_answer

/-- `Pd_session_component::free(ram_cap)`, pd_session.cc:317-320. -/
def free (self : Pd_session_component) (ram_cap : Capability)
    (parent_answer : Outcome Unit) : Outcome Unit × Pd_session_component :=
  self.forward_only (.free ram_cap) parent_answer

/-- `Pd_session_component::dataspace_size(cap)`, pd_session.cc:322-327. -/
def dataspace_size (self : Pd_session_component) (cap : Capability)
    (parent_answer : Outcome Nat) : Outcome Nat × Pd_session_component :=
  self.forward_only (.dataspace_size cap) parent_answer

/-- `Pd_session_component::native_pd()`, pd_session.cc:329-338. -/
def native_pd (self : Pd_session_component) (parent_answer : Outcome Capability) :
    Outcome Capability × Pd_session_component :=
  self.forward_only .native_pd parent_answer

end Pd_session_component

/-! ## Ram session component (ckpt/ram_session_component.h) -/

/-- Calls of the Ram session interface as made on `_parent_ram`. -/
inductive Ram_call where
  | alloc (size : Nat) (cached : Cache_attribute)
  | free (ds : Capability)
  | ref_account (ram_session : Capability)
  | transfer_quota (ram_session : Capability) (amount : Nat)
  | quota
  | used
deriving DecidableEq, Repr

/-- State of a `Ram_session_component`: it keeps no record of its own, so all
there is to observe are the calls it has made on `_parent_ram`. -/
structure Ram_session_component where
  calls : List Ram_call
deriving DecidableEq, Repr

namespace Ram_session_component

/-- `Ram_session_component::alloc(size, cached)`, ram_session_component.h:57-61. -/
def alloc (self : Ram_session_component) (size : Nat) (cached : Cache_attribute)
    (parent_answer : Outcome Capability) : Outcome Capability × Ram_session_component :=
  (parent_answer, { self with calls := self.calls ++ [.alloc size cached] })

/-- `Ram_session_component::free(ds)`, ram_session_component.h:63-67. -/
def free (self : Ram_session_component) (ds : Capability) (parent_answer : Outcome Unit) :
    Outcome Unit × Ram_session_component :=
  (parent_answer, { self with calls := self.calls ++ [.free ds] })

/-- `Ram_session_component::ref_account(ram_session)`, ram_session_component.h:69-73. -/
def ref_account (self : Ram_session_component) (ram_session : Capability)
    (parent_answer : Outcome Int) : Outcome Int × Ram_session_component :=
  (parent_answer, { self with calls := self.calls ++ [.ref_account ram_session] })

/-- `Ram_session_component::transfer_quota(ram_session, amount)`,
ram_session_component.h:75-79. -/
def transfer_quota (self : Ram_session_component) (ram_session : Capability) (amount : Nat)
    (parent_answer : Outcome Int) : Outcome Int × Ram_session_component :=
  (parent_answer, { self with calls := self.calls ++ [.transfer_quota ram_session amount] })

/-- `Ram_session_component::quota()`, ram_session_component.h:81-85. -/
def quota (self : Ram_session_component) (parent_answer : Outcome Nat) :
    Outcome Nat × Ram_session_component :=
  (parent_answer, { self with calls := self.calls ++ [.quota] })

/-- `Ram_session_component::used()`, ram_session_component.h:87-91. -/
def used (self : Ram_session_component) (parent_answer : Outcome Nat) :
    Outcome Nat × Ram_session_component :=
  (parent_answer, { self with calls := self.calls ++ [.used] })

end Ram_session_component

/-! ## Genode utilities used by the roots (util/arg_string.h, util/string.h)

These belong to the Genode library, not to the repository. -/

/-- `Genode::Arg`, the result of `Arg_string::find_arg`: what the value of the
argument yields when it is read as a string and when it is read as an unsigned
number, `none` where the argument is missing or its value is not of that kind. -/
structure Arg where
  string_value : Option String
  ulong : Option Nat
deriving DecidableEq, Repr

/-- `Arg::ulong_value(default_value)`. -/
def Arg.ulong_value (self : Arg) (default_value : Nat) : Nat :=
  self.ulong.getD default_value

/-- `Arg::string(dst, dst_len, default_string)`: the content of `dst` afterwards,
at most `dst_len - 1` characters of the value, or the default. -/
def Arg.string (self : Arg) (dst_len : Nat) (default_string : String) : String :=
  match self.string_value with
  | some value => String.mk (value.data.take (dst_len - 1))
  | none => default_string

/-- The library functions on argument strings and character buffers that the
roots call, taken as a parameter: `Arg_string::find_arg(args, key)`,
`Arg_string::set_arg(args, args_len, key, value)` (the content of `args`
afterwards), `Genode::strncpy(dst, src, size)` (the content of `dst` afterwards)
and `Genode::snprintf(dst, size, "%zu", value)` (the content of `dst`
afterwards). -/
structure Genode_util where
  find_arg : String → String → Arg
  set_arg : String → Nat → String → String → String
  strncpy : String → Nat → String
  snprintf_zu : Nat → Nat → String

/-! ## Pd root (pd_session.h, pd_session.cc)

A session object is identified across calls by its address; the list
`_session_rpc_objs` is the list of the addresses of the session objects linked
into it, first element first. -/

/-- Effects of a method of a root, in program order. -/
inductive Root_event where
  /-- construction of the `Genode::Lock::Guard` of the registry -/
  | lock
  /-- destruction of the guard at the end of its scope -/
  | unlock
  /-- `insert` of the object at the given address into the registry -/
  | insert (obj : Nat)
  /-- `remove` of the object at the given address from the registry -/
  | remove (obj : Nat)
  /-- `Genode::destroy(_md_alloc, obj)` of the object at the given address -/
  | destroy (obj : Nat)
  /-- `_env.parent().upgrade(Genode::Parent::Env::pd(), args)` -/
  | upgrade (args : String)
deriving DecidableEq, Repr

/-- State of a `Pd_root`: the registry `_session_rpc_objs` and the events its
methods have produced so far. -/
structure Pd_root where
  _session_rpc_objs : List Nat
  events : List Root_event
deriving DecidableEq, Repr

namespace Pd_root

/-- Append one event to the history of the root. -/
def emit (self : Pd_root) (e : Root_event) : Pd_root :=
  { self with events := self.events ++ [e] }

/-- The label extraction at the head of `Pd_root::_create_session`,
pd_session.cc:345-348: the content of `label_buf`. -/
def label_buf (lib : Genode_util) (args : String) : String :=
  -- Genode::Arg label_arg = Genode::Arg_string::find_arg(args, "label");
  let label_arg := lib.find_arg args "label"
  -- label_arg.string(label_buf, sizeof(label_buf), "");
  label_arg.string 128 ""

/-- `Pd_root::_create_session(args)`, pd_session.cc:340-370.  `new_session` is the
address `new (_md_alloc)` returns; the capabilities of the new session object
and of its region map components come from the entrypoint.  The result is the
returned pointer, the state of the session object it points to, and the root. -/
def _create_session (self : Pd_root) (lib : Genode_util) (args : String) (new_session : Nat)
    (cap : Capability) (address_space stack_area linker_area : Region_map_component) :
    Nat × Pd_session_component × Pd_root :=
  -- char label_buf[128]; ... label_arg.string(label_buf, sizeof(label_buf), "");
  let _label_buf := label_buf lib args
  -- new (_md_alloc) Pd_session_component(_env, _md_alloc, _ep, args, args, _bootstrap_phase, ..)
  let session := Pd_session_component.init cap address_space stack_area linker_area
  -- Genode::Lock::Guard lock(_objs_lock);
  let self := self.emit .lock
  -- _session_rpc_objs.insert(new_session);
  let self := { self with _session_rpc_objs :=
                  Genode.List.insert self._session_rpc_objs new_session }
  let self := self.emit (.insert new_session)
  -- return new_session;
  (new_session, session, self.emit .unlock)

/-- `Pd_root::_upgrade_session(session, upgrade_args)`, pd_session.cc:373-392.
`session` is the state of the object the pointer refers to, `word_bits` the
width of `Genode::size_t`.  The result is the state of the session object
afterwards and the root. -/
def _upgrade_session (self : Pd_root) (lib : Genode_util) (word_bits : Nat)
    (session : Pd_session_component) (upgrade_args : String) :
    Pd_session_component × Pd_root :=
  -- Genode::strncpy(new_upgrade_args, session->parent_state().upgrade_args.string(), 160);
  let new_upgrade_args := lib.strncpy session._parent_state.upgrade_args 160
  -- size_t ram_quota = Arg_string::find_arg(new_upgrade_args, "ram_quota").ulong_value(0);
  let ram_quota := (lib.find_arg new_upgrade_args "ram_quota").ulong_value 0
  -- size_t extra_ram_quota = Arg_string::find_arg(upgrade_args, "ram_quota").ulong_value(0);
  let extra_ram_quota := (lib.find_arg upgrade_args "ram_quota").ulong_value 0
  -- ram_quota += extra_ram_quota;
  let ram_quota := (ram_quota + extra_ram_quota) % 2 ^ word_bits
  -- Genode::snprintf(ram_quota_buf, sizeof(ram_quota_buf), "%zu", ram_quota);
  let ram_quota_buf := lib.snprintf_zu 32 ram_quota
  -- Arg_string::set_arg(new_upgrade_args, sizeof(new_upgrade_args), "ram_quota", ram_quota_buf);
  let new_upgrade_args := lib.set_arg new_upgrade_args 160 "ram_quota" ram_quota_buf
  -- session->parent_state().upgrade_args = new_upgrade_args;
  let session := { session with _parent_state.upgrade_args := new_upgrade_args }
  -- _env.parent().upgrade(Genode::Parent::Env::pd(), upgrade_args);
  (session, self.emit (.upgrade upgrade_args))

/-- `Pd_root::_destroy_session(session)`, pd_session.cc:395-401.  `List::remove`
walks the list for the element with the given address; `indexOf` is the
position it stops at, the length of the list if there is none. -/
def _destroy_session (self : Pd_root) (session : Nat) : Pd_root :=
  -- _session_rpc_objs.remove(session);
  let le := self._session_rpc_objs.indexOf session
  let self := { self with _session_rpc_objs := Genode.List.remove self._session_rpc_objs le }
  let self := self.emit (.remove session)
  -- Genode::destroy(_md_alloc, session);
  self.emit (.destroy session)

/-- `Pd_root::~Pd_root()`, pd_session.cc:419-428, the `while` loop run for at most
`fuel` tests of its condition; `none` when the fuel does not suffice. -/
def destructor (fuel : Nat) (self : Pd_root) : Option Pd_root :=
  match fuel with
  | 0 => none
  | fuel + 1 =>
    -- while(Pd_session_component *obj = _session_rpc_objs.first())
    match self._session_rpc_objs.head? with
    | none => some self
    | some obj =>
      -- _session_rpc_objs.remove(obj);
      let le := self._session_rpc_objs.indexOf obj
      let self := { self with _session_rpc_objs := Genode.List.remove self._session_rpc_objs le }
      let self := self.emit (.remove obj)
      -- Genode::destroy(_md_alloc, obj);
      let self := self.emit (.destroy obj)
      destructor fuel self

end Pd_root

/-! ## Call sequences -/

/-- A Pd session component together with the flag its `_bootstrap_phase`
reference designates (`bool &_bootstrap_phase`, pd_session.h:48; `Pd_root` hands its
own reference to the orchestrator's flag to the session it creates,
pd_session.cc:364). -/
structure Monitored_pd where
  bootstrap_phase : Bool
  pd : Pd_session_component
deriving DecidableEq, Repr

/-- One step seen by a Pd session component: the orchestrator writes the shared
flag, or a client calls one of the six ledger methods.  An alloc carries the
answer of the real service. -/
inductive Call where
  | set_bootstrap_phase (value : Bool)
  | alloc_signal_source (parent_answer : Outcome Capability)
  | free_signal_source (cap : Capability)
  | alloc_context (source : Capability) (imprint : Nat) (parent_answer : Outcome Capability)
  | free_context (cap : Capability)
  | alloc_rpc_cap (ep : Capability) (parent_answer : Outcome Capability)
  | free_rpc_cap (cap : Capability)
deriving DecidableEq, Repr

/-- Effect of one step. -/
def Monitored_pd.step (m : Monitored_pd) (c : Call) : Monitored_pd :=
  match c with
  | .set_bootstrap_phase value => { m with bootstrap_phase := value }
  | .alloc_signal_source a =>
    { m with pd := (m.pd.alloc_signal_source m.bootstrap_phase a).2 }
  | .free_signal_source cap => { m with pd := m.pd.free_signal_source cap }
  | .alloc_context source imprint a =>
    { m with pd := (m.pd.alloc_context m.bootstrap_phase source imprint a).2 }
  | .free_context cap => { m with pd := m.pd.free_context cap }
  | .alloc_rpc_cap ep a => { m with pd := (m.pd.alloc_rpc_cap m.bootstrap_phase ep a).2 }
  | .free_rpc_cap cap => { m with pd := m.pd.free_rpc_cap cap }

/-- Effect of a finite sequence of steps, first step first. -/
def Monitored_pd.run (m : Monitored_pd) (calls : List Call) : Monitored_pd :=
  calls.foldl Monitored_pd.step m

/-! ## Stored attachments (offline_storage/stored_attached_region_info.h) -/

/-- Modelled from the spec: `offline_storage/stored_info_structs.h` is not part of
the sources.  Fields are the arguments of the base constructor call
`Stored_normal_info(kcap, badge, bootstrapped)`. -/
structure Stored_normal_info where
  kcap : Nat
  badge : Int
  bootstrapped : Bool
deriving DecidableEq, Repr

/-- `Stored_attached_region_info`: the base part and the `const` members.
`attached_ds_badge` is a `Genode::uint16_t`. -/
structure Stored_attached_region_info where
  base : Stored_normal_info
  attached_ds_badge : Nat
  memory_content : Capability
  size : Nat
  offset : Int
  rel_addr : Nat
  executable : Bool
deriving DecidableEq, Repr

/-- Constructor `Stored_attached_region_info(info, kcap, copy_ds_cap)`,
stored_attached_region_info.h:31-42. -/
def Stored_attached_region_info.create (info : Attached_region_info) (kcap : Nat)
    (copy_ds_cap : Capability) : Stored_attached_region_info :=
  { base :=
      { kcap := kcap
        badge := info.attached_ds_cap.local_name
        bootstrapped := info.bootstrapped }
    attached_ds_badge := (info.attached_ds_cap.local_name % 65536).toNat
    memory_content := copy_ds_cap
    size := info.size
    offset := info.offset
    rel_addr := info.rel_addr
    executable := info.executable }

/-! ## Reference notions for whole call sequences

These follow the wording of the specification and do not look at the component. -/

/-- Specification side: number of `alloc_signal_source` calls that returned a
handle. -/
def spec_alloc_count (calls : List Call) : Nat :=
  calls.countP fun c =>
    match c with
    | .alloc_signal_source (.returned _) => true
    | _ => false

/-- Specification side: the alloc results that no free has matched, newest first.
`live` are the unmatched results so far; a `free_signal_source(cap)` matches one
live result with the badge of `cap`, if there is one. -/
def spec_unfreed_alloc_results (live : List Capability) : List Call → List Capability
  | [] => live
  | .alloc_signal_source (.returned h) :: calls => spec_unfreed_alloc_results (h :: live) calls
  | .free_signal_source cap :: calls =>
    spec_unfreed_alloc_results (live.eraseP fun h => cap.local_name == h.local_name) calls
  | _ :: calls => spec_unfreed_alloc_results live calls

/-- Specification side: number of `free_signal_source` calls that matched a live
alloc result. -/
def spec_matching_frees (live : List Capability) : List Call → Nat
  | [] => 0
  | .alloc_signal_source (.returned h) :: calls => spec_matching_frees (h :: live) calls
  | .free_signal_source cap :: calls =>
    (if live.any (fun h => cap.local_name == h.local_name) then 1 else 0) +
      spec_matching_frees (live.eraseP fun h => cap.local_name == h.local_name) calls
  | _ :: calls => spec_matching_frees live calls

/-- Specification side: one record per `alloc_signal_source` call that returned,
newest first, pairing the handle with the value the shared flag had at that call.
`flag` is the value of the flag before the first call. -/
def spec_signal_source_allocs (flag : Bool) : List Call → List Signal_source_info
  | [] => []
  | .set_bootstrap_phase value :: calls => spec_signal_source_allocs value calls
  | .alloc_signal_source (.returned h) :: calls =>
    spec_signal_source_allocs flag calls ++ [{ cap := h, bootstrapped := flag }]
  | _ :: calls => spec_signal_source_allocs flag calls

/-- Specification side: one record per `alloc_context` call that returned, newest
first, with the arguments of the call and the value of the flag at that call. -/
def spec_signal_context_allocs (flag : Bool) : List Call → List Signal_context_info
  | [] => []
  | .set_bootstrap_phase value :: calls => spec_signal_context_allocs value calls
  | .alloc_context source imprint (.returned h) :: calls =>
    spec_signal_context_allocs flag calls ++
      [{ cap := h, source := source, imprint := imprint, bootstrapped := flag }]
  | _ :: calls => spec_signal_context_allocs flag calls

/-- Specification side: one record per `alloc_rpc_cap` call that returned, newest
first, with the endpoint of the call and the value of the flag at that call. -/
def spec_native_cap_allocs (flag : Bool) : List Call → List Native_capability_info
  | [] => []
  | .set_bootstrap_phase value :: calls => spec_native_cap_allocs value calls
  | .alloc_rpc_cap ep (.returned h) :: calls =>
    spec_native_cap_allocs flag calls ++ [{ cap := h, ep := ep, bootstrapped := flag }]
  | _ :: calls => spec_native_cap_allocs flag calls

/-- Badges held by the signal-source ledger, in list order. -/
def Pd_session_component.signal_source_badges (self : Pd_session_component) : List Int :=
  self._parent_state.signal_sources.map fun info => info.cap.local_name

/-- Badges held by the signal-context ledger, in list order. -/
def Pd_session_component.signal_context_badges (self : Pd_session_component) : List Int :=
  self._parent_state.signal_contexts.map fun info => info.cap.local_name

/-- Badges held by the native-capability ledger, in list order. -/
def Pd_session_component.native_cap_badges (self : Pd_session_component) : List Int :=
  self._parent_state.native_caps.map fun info => info.cap.local_name

/-- Assumption on the real service: whenever it answers an alloc with a handle,
no entry of the ledger that alloc feeds holds the badge of that handle at that
moment. -/
def fresh_answers (m : Monitored_pd) : List Call → Bool
  | [] => true
  | c :: calls =>
    (match c with
      | .alloc_signal_source (.returned h) => !m.pd.signal_source_badges.contains h.local_name
      | .alloc_context _ _ (.returned h) => !m.pd.signal_context_badges.contains h.local_name
      | .alloc_rpc_cap _ (.returned h) => !m.pd.native_cap_badges.contains h.local_name
      | _ => true) &&
    fresh_answers (m.step c) calls

/-- Specification side: the ram_quota recorded in the stored upgrade arguments of
a session, 0 if none is recorded. -/
def spec_recorded_ram_quota (lib : Genode_util) (session : Pd_session_component) : Nat :=
  match (lib.find_arg session._parent_state.upgrade_args "ram_quota").ulong with
  | some value => value
  | none => 0

/-- Specification side: the ram_quota requested in an upgrade argument string, 0 if
it is absent. -/
def spec_requested_ram_quota (lib : Genode_util) (upgrade_args : String) : Nat :=
  match (lib.find_arg upgrade_args "ram_quota").ulong with
  | some value => value
  | none => 0

/-! ## Lookups among sessions and stored attachments -/

/-- `Pd_session_component::find_by_badge(badge)`, pd_session.cc:56-62.  The
parameter is a `Genode::uint16_t`, so the argument is taken modulo 65536; the
comparison with `cap().local_name()` is made on integers.  The session the method
is called on is the head of `this_and_rest`, at position `pos` of the list. -/
def Pd_session_component.find_by_badge (this_and_rest : List Pd_session_component) (pos : Nat)
    (badge : Nat) : Option Nat :=
  find_from (fun obj => ((badge % 65536 : Nat) : Int) == obj.cap.local_name) this_and_rest pos

/-- `Stored_attached_region_info::find_by_addr(addr)`,
stored_attached_region_info.h:44-50.  `rel_addr + size` is computed in
`Genode::addr_t`, `word_bits` wide. -/
def Stored_attached_region_info.find_by_addr (word_bits : Nat)
    (this_and_rest : List Stored_attached_region_info) (pos : Nat) (addr : Nat) : Option Nat :=
  find_from
    (fun info => decide (addr ≥ info.rel_addr) &&
      decide (addr ≤ (info.rel_addr + info.size) % 2 ^ word_bits))
    this_and_rest pos

/-- Specification side: position of the first stored attachment in list order whose
half-open range `[rel_addr, rel_addr + size)` contains `addr`. -/
def spec_first_in_range (l : List Stored_attached_region_info) (addr : Nat) : Option Nat :=
  l.findIdx? fun info => decide (info.rel_addr ≤ addr) && decide (addr < info.rel_addr + info.size)

/-! ## Rm session and Rm root (rm_session.h) -/

namespace Rm_session

/-- `Region_map_info` of rm_session.h:33-52, the list element of an Rm session;
`region_map` is the component the reference designates. -/
structure Region_map_info where
  region_map : Region_map_component
deriving DecidableEq, Repr

/-- `Region_map_info::find_by_cap(cap)`, rm_session.h:45-51. -/
def Region_map_info.find_by_cap (this_and_rest : List Region_map_info) (pos : Nat)
    (cap : Capability) : Option Nat :=
  find_from (fun info => cap == info.region_map.cap) this_and_rest pos

end Rm_session

/-- Effects of a method of the Rm session component, in program order. -/
inductive Rm_event where
  /-- `_parent_rm.create(size)` -/
  | forward_create (size : Nat)
  /-- `_parent_rm.destroy(cap)` -/
  | forward_destroy (cap : Capability)
  /-- construction of the `Genode::Lock::Guard` on `_infos_lock` -/
  | lock
  /-- destruction of the guard at the end of its scope -/
  | unlock
  /-- `first()` followed by the `find_by_cap` walk -/
  | lookup
  /-- `insert` of a new list element -/
  | insert
  /-- `remove` of a list element -/
  | remove
  /-- `Genode::destroy` of the region map component with the given capability -/
  | destroy_region_map (cap : Capability)
  /-- `Genode::destroy` of a list element -/
  | destroy_info
  /-- `Genode::error(...)` -/
  | error
deriving DecidableEq, Repr

/-- State of an `Rm_session_component`: the list `_region_map_infos` and the events
its methods have produced so far. -/
structure Rm_session_component where
  _region_map_infos : List Rm_session.Region_map_info
  events : List Rm_event
deriving DecidableEq, Repr

namespace Rm_session_component

/-- Append one event to the history of the component. -/
def emit (self : Rm_session_component) (e : Rm_event) : Rm_session_component :=
  { self with events := self.events ++ [e] }

/-- `Rm_session_component::create(size)`, rm_session.h:148-168.  `new_cap` is the
capability the entrypoint gives the new `Region_map_component`. -/
def create (self : Rm_session_component) (size : Nat) (parent_answer : Outcome Capability)
    (new_cap : Capability) : Outcome Capability × Rm_session_component :=
  -- auto parent_cap = _parent_rm.create(size);
  let self := self.emit (.forward_create size)
  match parent_answer with
  | .thrown e => (.thrown e, self)
  | .returned parent_cap =>
    -- new (_md_alloc) Region_map_component(_ep, _md_alloc, parent_cap, "custom");
    let new_region_map : Region_map_component :=
      { cap := new_cap, _parent_region_map := parent_cap, _parent_state := { attached_regions := [] } }
    -- new (_md_alloc) Region_map_info(*new_region_map);
    let rm_info : Rm_session.Region_map_info := { region_map := new_region_map }
    -- Genode::Lock::Guard lock(_infos_lock);
    let self := self.emit .lock
    -- _region_map_infos.insert(rm_info);
    let self := { self with _region_map_infos := Genode.List.insert self._region_map_infos rm_info }
    let self := self.emit .insert
    -- return new_region_map->cap();
    (.returned new_region_map.cap, self.emit .unlock)

/-- `Rm_session_component::destroy(region_map_cap)`, rm_session.h:175-204. -/
def destroy (self : Rm_session_component) (region_map_cap : Capability) : Rm_session_component :=
  -- Genode::Lock::Guard lock (_infos_lock);
  let self := self.emit .lock
  -- rms_info = _region_map_infos.first(); if(rms_info) rms_info = rms_info->find_by_cap(region_map_cap);
  let rms_info : Option Nat :=
    match Genode.List.first self._region_map_infos with
    | none => none
    | some first =>
      Rm_session.Region_map_info.find_by_cap (self._region_map_infos.drop first) first
        region_map_cap
  let self := self.emit .lookup
  match rms_info with
  | some rms_info =>
    match self._region_map_infos.get? rms_info with
    | some info =>
      -- Genode::error("Issuing Rm_session::destroy, which is bugged and hangs up.");
      let self := self.emit .error
      -- _parent_rm.destroy(rms_info->region_map.parent_cap());
      let self := self.emit (.forward_destroy info.region_map.parent_cap)
      -- Genode::destroy(_md_alloc, &rms_info->region_map);
      let self := self.emit (.destroy_region_map info.region_map.cap)
      -- _region_map_infos.remove(rms_info);
      let self := { self with _region_map_infos :=
                      Genode.List.remove self._region_map_infos rms_info }
      let self := self.emit .remove
      -- Genode::destroy(_md_alloc, rms_info);
      let self := self.emit .destroy_info
      self.emit .unlock
    | none => self.emit .unlock
  | none =>
    -- Genode::error("No Region map with ", region_map_cap, " found!");
    let self := self.emit .error
    self.emit .unlock

/-- `Rm_session_component::~Rm_session_component()`, rm_session.h:125-136, the
`while` loop run for at most `fuel` tests of its condition; `none` when the fuel
does not suffice. -/
def destructor (fuel : Nat) (self : Rm_session_component) : Option Rm_session_component :=
  match fuel with
  | 0 => none
  | fuel + 1 =>
    -- while((rms_info = _region_map_infos.first()))
    match self._region_map_infos with
    | [] => some self
    | rms_info :: _ =>
      -- _region_map_infos.remove(rms_info);
      let self := { self with _region_map_infos := Genode.List.remove self._region_map_infos 0 }
      let self := self.emit .remove
      -- destroy(rms_info->region_map.cap());
      let self := self.destroy rms_info.region_map.cap
      destructor fuel self

end Rm_session_component

/-- `Rm_session_info` of rm_session.h:57-82, the list element of the Rm root: `rms`
is the address of the session object the reference designates, `args` its
creation arguments. -/
structure Rm_session_info where
  rms : Nat
  args : String
deriving DecidableEq, Repr

/-- `Rm_session_info::find_by_ptr(ptr)`, rm_session.h:74-80. -/
def Rm_session_info.find_by_ptr (this_and_rest : List Rm_session_info) (pos : Nat)
    (ptr : Nat) : Option Nat :=
  find_from (fun info => ptr == info.rms) this_and_rest pos

/-- Effects of a method of the Rm root, in program order. -/
inductive Rm_root_event where
  /-- construction of the `Genode::Lock::Guard` on `_infos_lock` -/
  | lock
  /-- destruction of the guard at the end of its scope -/
  | unlock
  /-- `insert` of a new list element -/
  | insert (info : Rm_session_info)
  /-- `remove` of a list element -/
  | remove (info : Rm_session_info)
  /-- `Genode::destroy` of a list element -/
  | destroy_info (info : Rm_session_info)
  /-- `Genode::destroy` of the session object at the given address -/
  | destroy_session (rms : Nat)
deriving DecidableEq, Repr

/-- State of an `Rm_root`: the registry `_rms_infos` and the events its methods have
produced so far. -/
structure Rm_root where
  _rms_infos : List Rm_session_info
  events : List Rm_root_event
deriving DecidableEq, Repr

namespace Rm_root

/-- Append one event to the history of the root. -/
def emit (self : Rm_root) (e : Rm_root_event) : Rm_root :=
  { self with events := self.events ++ [e] }

/-- `Rm_root::_create_session(args)`, rm_session.h:241-255.  `new_rms` is the address
`new (md_alloc())` returns for the session object. -/
def _create_session (self : Rm_root) (args : String) (new_rms : Nat) : Nat × Rm_root :=
  -- new (md_alloc()) Rm_session_info(*new_rms, args);
  let new_rms_info : Rm_session_info := { rms := new_rms, args := args }
  -- Genode::Lock::Guard lock(_infos_lock);
  let self := self.emit .lock
  -- _rms_infos.insert(new_rms_info);
  let self := { self with _rms_infos := Genode.List.insert self._rms_infos new_rms_info }
  let self := self.emit (.insert new_rms_info)
  -- return new_rms;
  (new_rms, self.emit .unlock)

/-- `Rm_root::_destroy_session(session)`, rm_session.h:257-270. -/
def _destroy_session (self : Rm_root) (session : Nat) : Rm_root :=
  -- rms_info = _rms_infos.first(); if(rms_info) rms_info = rms_info->find_by_ptr(session);
  let rms_info : Option Nat :=
    match Genode.List.first self._rms_infos with
    | none => none
    | some first => Rm_session_info.find_by_ptr (self._rms_infos.drop first) first session
  let self :=
    match rms_info with
    | some rms_info =>
      match self._rms_infos.get? rms_info with
      | some info =>
        -- _rms_infos.remove(rms_info);
        let self := { self with _rms_infos := Genode.List.remove self._rms_infos rms_info }
        let self := self.emit (.remove info)
        -- destroy(_md_alloc, rms_info);
        self.emit (.destroy_info info)
      | none => self
    | none => self
  -- destroy(_md_alloc, session);
  self.emit (.destroy_session session)

/-- `Rm_root::~Rm_root()`, rm_session.h:285-296, the `while` loop run for at most
`fuel` tests of its condition; `none` when the fuel does not suffice. -/
def destructor (fuel : Nat) (self : Rm_root) : Option Rm_root :=
  match fuel with
  | 0 => none
  | fuel + 1 =>
    -- while((info = _rms_infos.first()))
    match self._rms_infos with
    | [] => some self
    | info :: _ =>
      -- _rms_infos.remove(info);
      let self := { self with _rms_infos := Genode.List.remove self._rms_infos 0 }
      let self := self.emit (.remove info)
      -- Genode::destroy(_md_alloc, info);
      let self := self.emit (.destroy_info info)
      destructor fuel self

end Rm_root

/-- `Pd_session_component::~Pd_session_component()`, pd_session.cc:46-53: the body
holds comments only. -/
def Pd_session_component.destructor (self : Pd_session_component) : Pd_session_component :=
  self

/-! ## Region map attach and detach

`region_map_component.h` declares `attach` and `detach`; the file that defines
them is not part of the sources. -/

/-- Modelled from the spec: `Attached_region_info::find_by_addr` is not part of the
sources; "find the attachment whose range contains addr (first structural
match)", the range being tested as the one `find_by_addr` that is in the
sources tests it, `(addr >= rel_addr) && (addr <= rel_addr + size)`
(stored_attached_region_info.h:46), on addresses as numbers. -/
def Attached_region_info.find_by_addr (this_and_rest : List Attached_region_info) (pos : Nat)
    (addr : Nat) : Option Nat :=
  find_from
    (fun info => decide (addr ≥ info.rel_addr) && decide (addr ≤ info.rel_addr + info.size))
    this_and_rest pos

/-- Specification side: in a sequence of events no call on the real service is made
while a ledger lock is held.  `held` tells whether a lock is held before the first
event. -/
def spec_never_forwards_locked (held : Bool) : List Event → Bool
  | [] => true
  | .lock _ :: events => spec_never_forwards_locked true events
  | .unlock _ :: events => spec_never_forwards_locked false events
  | .forward _ :: events => !held && spec_never_forwards_locked held events
  | _ :: events => spec_never_forwards_locked held events

/-! # Properties -/

/-! ## Basic facts about the list lookups -/

theorem find_from_eq_none {α : Type} (hit : α → Bool) (l : List α) (pos : Nat) :
    find_from hit l pos = none ↔ ∀ x ∈ l, hit x = false := by
  induction l generalizing pos with
  | nil => simp [find_from]
  | cons a l ih =>
    by_cases h : hit a
    · simp [find_from, h]
    · simp [find_from, h, ih]

theorem find_from_eq_some {α : Type} (hit : α → Bool) (l : List α) (pos i : Nat)
    (h : find_from hit l pos = some i) :
    ∃ k, i = pos + k ∧ l.eraseIdx k = l.eraseP hit ∧
      ∃ hk : k < l.length, hit (l.get ⟨k, hk⟩) = true ∧
        ∀ j (hj : j < l.length), j < k → hit (l.get ⟨j, hj⟩) = false := by
  induction l generalizing pos with
  | nil => simp [find_from] at h
  | cons a l ih =>
    by_cases ha : hit a
    · simp [find_from, ha] at h
      exact ⟨0, by omega, by simp [ha], by simp, by simpa using ha, by intro j hj hlt; omega⟩
    · simp [find_from, ha] at h
      obtain ⟨k, hik, her, hk, hhit, hbefore⟩ := ih (pos + 1) h
      refine ⟨k + 1, by omega, by simp [ha, her], by simp; omega, by simpa using hhit, ?_⟩
      intro j hj hlt
      cases j with
      | zero => simpa using ha
      | succ j =>
        have := hbefore j (by simp at hj; omega) (by omega)
        simpa using this

/-- The pointer computed by `first()` and the `find_by_*` walk. -/
theorem first_then_find {α : Type} (hit : α → Bool) (l : List α) :
    (match Genode.List.first l with
      | none => none
      | some first => find_from hit (l.drop first) first) = find_from hit l 0 := by
  cases l <;> simp [Genode.List.first, find_from]

theorem exists_erase_index {α : Type} (hit : α → Bool) (l : List α)
    (h : ∃ x ∈ l, hit x = true) :
    ∃ i, ∃ hi : i < l.length, hit (l.get ⟨i, hi⟩) = true ∧ l.eraseP hit = l.eraseIdx i := by
  cases hf : find_from hit l 0 with
  | none =>
    rw [find_from_eq_none] at hf
    obtain ⟨x, hmem, hx⟩ := h
    rw [hf x hmem] at hx
    cases hx
  | some i =>
    obtain ⟨k, -, her, hk, hhit, -⟩ := find_from_eq_some _ _ _ _ hf
    exact ⟨k, hk, hhit, her.symm⟩

namespace Pd_session_component

theorem free_signal_source_miss (self : Pd_session_component) (cap : Capability)
    (h : ∀ info ∈ self._parent_state.signal_sources, (cap.local_name == info.cap.local_name) = false) :
    self.free_signal_source cap =
      { self with events := self.events ++
          [.lock .signal_sources, .lookup .signal_sources, .error, .unlock .signal_sources] } := by
  have hf := (find_from_eq_none (fun info : Signal_source_info => cap.local_name == info.cap.local_name)
    self._parent_state.signal_sources 0).mpr h
  simp only [free_signal_source, emit, Signal_source_info.find_by_badge, first_then_find, hf,
    List.append_assoc, List.singleton_append, List.cons_append, List.nil_append]

theorem free_signal_source_hit (self : Pd_session_component) (cap : Capability)
    (h : ∃ info ∈ self._parent_state.signal_sources, (cap.local_name == info.cap.local_name) = true) :
    self.free_signal_source cap =
      { self with
        _parent_state := { self._parent_state with
          signal_sources := self._parent_state.signal_sources.eraseP
            (fun info => cap.local_name == info.cap.local_name) }
        events := self.events ++
          [.lock .signal_sources, .lookup .signal_sources, .remove .signal_sources,
           .forward (.free_signal_source cap), .unlock .signal_sources] } := by
  cases hf : find_from (fun info : Signal_source_info => cap.local_name == info.cap.local_name)
      self._parent_state.signal_sources 0 with
  | none =>
    rw [find_from_eq_none] at hf
    obtain ⟨info, hmem, hhit⟩ := h
    rw [hf info hmem] at hhit
    cases hhit
  | some i =>
    obtain ⟨k, hik, her, -⟩ := find_from_eq_some _ _ _ _ hf
    have hk : i = k := by omega
    subst hk
    simp only [free_signal_source, emit, Signal_source_info.find_by_badge, first_then_find, hf,
      Genode.List.remove, her,
      List.append_assoc, List.singleton_append, List.cons_append, List.nil_append]

theorem free_context_miss (self : Pd_session_component) (cap : Capability)
    (h : ∀ info ∈ self._parent_state.signal_contexts, (cap.local_name == info.cap.local_name) = false) :
    self.free_context cap =
      { self with events := self.events ++
          [.lock .signal_contexts, .lookup .signal_contexts, .error, .unlock .signal_contexts] } := by
  have hf := (find_from_eq_none (fun info : Signal_context_info => cap.local_name == info.cap.local_name)
    self._parent_state.signal_contexts 0).mpr h
  simp only [free_context, emit, Signal_context_info.find_by_badge, first_then_find, hf,
    List.append_assoc, List.singleton_append, List.cons_append, List.nil_append]

theorem free_context_hit (self : Pd_session_component) (cap : Capability)
    (h : ∃ info ∈ self._parent_state.signal_contexts, (cap.local_name == info.cap.local_name) = true) :
    self.free_context cap =
      { self with
        _parent_state := { self._parent_state with
          signal_contexts := self._parent_state.signal_contexts.eraseP
            (fun info => cap.local_name == info.cap.local_name) }
        events := self.events ++
          [.lock .signal_contexts, .lookup .signal_contexts, .remove .signal_contexts,
           .forward (.free_context cap), .unlock .signal_contexts] } := by
  cases hf : find_from (fun info : Signal_context_info => cap.local_name == info.cap.local_name)
      self._parent_state.signal_contexts 0 with
  | none =>
    rw [find_from_eq_none] at hf
    obtain ⟨info, hmem, hhit⟩ := h
    rw [hf info hmem] at hhit
    cases hhit
  | some i =>
    obtain ⟨k, hik, her, -⟩ := find_from_eq_some _ _ _ _ hf
    have hk : i = k := by omega
    subst hk
    simp only [free_context, emit, Signal_context_info.find_by_badge, first_then_find, hf,
      Genode.List.remove, her,
      List.append_assoc, List.singleton_append, List.cons_append, List.nil_append]

theorem free_rpc_cap_miss (self : Pd_session_component) (cap : Capability)
    (h : ∀ info ∈ self._parent_state.native_caps, (cap.local_name == info.cap.local_name) = false) :
    self.free_rpc_cap cap =
      { self with events := self.events ++
          [.lock .native_caps, .lookup .native_caps, .error, .unlock .native_caps] } := by
  have hf := (find_from_eq_none (fun info : Native_capability_info => cap.local_name == info.cap.local_name)
    self._parent_state.native_caps 0).mpr h
  simp only [free_rpc_cap, emit, Native_capability_info.find_by_native_badge, first_then_find, hf,
    List.append_assoc, List.singleton_append, List.cons_append, List.nil_append]

theorem free_rpc_cap_hit (self : Pd_session_component) (cap : Capability)
    (h : ∃ info ∈ self._parent_state.native_caps, (cap.local_name == info.cap.local_name) = true) :
    self.free_rpc_cap cap =
      { self with
        _parent_state := { self._parent_state with
          native_caps := self._parent_state.native_caps.eraseP
            (fun info => cap.local_name == info.cap.local_name) }
        events := self.events ++
          [.lock .native_caps, .lookup .native_caps, .remove .native_caps,
           .forward (.free_rpc_cap cap), .unlock .native_caps] } := by
  cases hf : find_from (fun info : Native_capability_info => cap.local_name == info.cap.local_name)
      self._parent_state.native_caps 0 with
  | none =>
    rw [find_from_eq_none] at hf
    obtain ⟨info, hmem, hhit⟩ := h
    rw [hf info hmem] at hhit
    cases hhit
  | some i =>
    obtain ⟨k, hik, her, -⟩ := find_from_eq_some _ _ _ _ hf
    have hk : i = k := by omega
    subst hk
    simp only [free_rpc_cap, emit, Native_capability_info.find_by_native_badge, first_then_find, hf,
      Genode.List.remove, her,
      List.append_assoc, List.singleton_append, List.cons_append, List.nil_append]

theorem free_signal_source_parent_state (self : Pd_session_component) (cap : Capability) :
    (self.free_signal_source cap)._parent_state =
      { self._parent_state with
        signal_sources := self._parent_state.signal_sources.eraseP
          (fun info => cap.local_name == info.cap.local_name) } := by
  by_cases h : ∃ info ∈ self._parent_state.signal_sources,
      (cap.local_name == info.cap.local_name) = true
  · rw [free_signal_source_hit self cap h]
  · have hm : ∀ info ∈ self._parent_state.signal_sources,
        (cap.local_name == info.cap.local_name) = false := by
      intro info hmem
      cases hb : (cap.local_name == info.cap.local_name)
      · rfl
      · exact absurd ⟨info, hmem, hb⟩ h
    rw [free_signal_source_miss self cap hm, List.eraseP_of_forall_not]
    intro a ha
    simp [hm a ha]

theorem free_context_parent_state (self : Pd_session_component) (cap : Capability) :
    (self.free_context cap)._parent_state =
      { self._parent_state with
        signal_contexts := self._parent_state.signal_contexts.eraseP
          (fun info => cap.local_name == info.cap.local_name) } := by
  by_cases h : ∃ info ∈ self._parent_state.signal_contexts,
      (cap.local_name == info.cap.local_name) = true
  · rw [free_context_hit self cap h]
  · have hm : ∀ info ∈ self._parent_state.signal_contexts,
        (cap.local_name == info.cap.local_name) = false := by
      intro info hmem
      cases hb : (cap.local_name == info.cap.local_name)
      · rfl
      · exact absurd ⟨info, hmem, hb⟩ h
    rw [free_context_miss self cap hm, List.eraseP_of_forall_not]
    intro a ha
    simp [hm a ha]

theorem free_rpc_cap_parent_state (self : Pd_session_component) (cap : Capability) :
    (self.free_rpc_cap cap)._parent_state =
      { self._parent_state with
        native_caps := self._parent_state.native_caps.eraseP
          (fun info => cap.local_name == info.cap.local_name) } := by
  by_cases h : ∃ info ∈ self._parent_state.native_caps,
      (cap.local_name == info.cap.local_name) = true
  · rw [free_rpc_cap_hit self cap h]
  · have hm : ∀ info ∈ self._parent_state.native_caps,
        (cap.local_name == info.cap.local_name) = false := by
      intro info hmem
      cases hb : (cap.local_name == info.cap.local_name)
      · rfl
      · exact absurd ⟨info, hmem, hb⟩ h
    rw [free_rpc_cap_miss self cap hm, List.eraseP_of_forall_not]
    intro a ha
    simp [hm a ha]

theorem alloc_signal_source_returned (self : Pd_session_component) (b : Bool) (h : Capability) :
    self.alloc_signal_source b (.returned h) =
      (.returned h,
       { self with
         _parent_state := { self._parent_state with
           signal_sources := { cap := h, bootstrapped := b } :: self._parent_state.signal_sources }
         events := self.events ++
           [.forward .alloc_signal_source, .lock .signal_sources, .insert .signal_sources,
            .unlock .signal_sources] }) := by
  simp only [alloc_signal_source, emit, Genode.List.insert,
    List.append_assoc, List.singleton_append, List.cons_append, List.nil_append]

theorem alloc_signal_source_thrown (self : Pd_session_component) (b : Bool) (e : Exception) :
    self.alloc_signal_source b (.thrown e) =
      (.thrown e, { self with events := self.events ++ [.forward .alloc_signal_source] }) := by
  simp only [alloc_signal_source, emit]

theorem alloc_context_returned (self : Pd_session_component) (b : Bool)
    (source : Capability) (imprint : Nat) (h : Capability) :
    self.alloc_context b source imprint (.returned h) =
      (.returned h,
       { self with
         _parent_state := { self._parent_state with
           signal_contexts :=
             { cap := h, source := source, imprint := imprint, bootstrapped := b } ::
               self._parent_state.signal_contexts }
         events := self.events ++
           [.forward (.alloc_context source imprint), .lock .signal_contexts,
            .insert .signal_contexts, .unlock .signal_contexts] }) := by
  simp only [alloc_context, emit, Genode.List.insert,
    List.append_assoc, List.singleton_append, List.cons_append, List.nil_append]

theorem alloc_context_thrown (self : Pd_session_component) (b : Bool)
    (source : Capability) (imprint : Nat) (e : Exception) :
    self.alloc_context b source imprint (.thrown e) =
      (.thrown e,
       { self with events := self.events ++ [.forward (.alloc_context source imprint)] }) := by
  simp only [alloc_context, emit]

theorem alloc_rpc_cap_returned (self : Pd_session_component) (b : Bool)
    (ep : Capability) (h : Capability) :
    self.alloc_rpc_cap b ep (.returned h) =
      (.returned h,
       { self with
         _parent_state := { self._parent_state with
           native_caps := { cap := h, ep := ep, bootstrapped := b } :: self._parent_state.native_caps }
         events := self.events ++
           [.forward (.alloc_rpc_cap ep), .lock .native_caps, .insert .native_caps,
            .unlock .native_caps] }) := by
  simp only [alloc_rpc_cap, emit, Genode.List.insert,
    List.append_assoc, List.singleton_append, List.cons_append, List.nil_append]

theorem alloc_rpc_cap_thrown (self : Pd_session_component) (b : Bool)
    (ep : Capability) (e : Exception) :
    self.alloc_rpc_cap b ep (.thrown e) =
      (.thrown e, { self with events := self.events ++ [.forward (.alloc_rpc_cap ep)] }) := by
  simp only [alloc_rpc_cap, emit]

end Pd_session_component

/-! ## Effect of one step on each ledger -/

theorem run_cons (m : Monitored_pd) (c : Call) (calls : List Call) :
    m.run (c :: calls) = (m.step c).run calls := rfl

theorem step_signal_sources (m : Monitored_pd) (c : Call) :
    (m.step c).pd._parent_state.signal_sources =
      match c with
      | .alloc_signal_source (.returned h) =>
        { cap := h, bootstrapped := m.bootstrap_phase } :: m.pd._parent_state.signal_sources
      | .free_signal_source cap =>
        m.pd._parent_state.signal_sources.eraseP fun info => cap.local_name == info.cap.local_name
      | _ => m.pd._parent_state.signal_sources := by
  cases c with
  | set_bootstrap_phase v => rfl
  | alloc_signal_source a =>
    cases a <;> simp [Monitored_pd.step, Pd_session_component.alloc_signal_source_returned,
      Pd_session_component.alloc_signal_source_thrown]
  | free_signal_source cap =>
    simp [Monitored_pd.step, Pd_session_component.free_signal_source_parent_state]
  | alloc_context source imprint a =>
    cases a <;> simp [Monitored_pd.step, Pd_session_component.alloc_context_returned,
      Pd_session_component.alloc_context_thrown]
  | free_context cap =>
    simp [Monitored_pd.step, Pd_session_component.free_context_parent_state]
  | alloc_rpc_cap ep a =>
    cases a <;> simp [Monitored_pd.step, Pd_session_component.alloc_rpc_cap_returned,
      Pd_session_component.alloc_rpc_cap_thrown]
  | free_rpc_cap cap =>
    simp [Monitored_pd.step, Pd_session_component.free_rpc_cap_parent_state]

theorem step_signal_contexts (m : Monitored_pd) (c : Call) :
    (m.step c).pd._parent_state.signal_contexts =
      match c with
      | .alloc_context source imprint (.returned h) =>
        { cap := h, source := source, imprint := imprint, bootstrapped := m.bootstrap_phase } ::
          m.pd._parent_state.signal_contexts
      | .free_context cap =>
        m.pd._parent_state.signal_contexts.eraseP fun info => cap.local_name == info.cap.local_name
      | _ => m.pd._parent_state.signal_contexts := by
  cases c with
  | set_bootstrap_phase v => rfl
  | alloc_signal_source a =>
    cases a <;> simp [Monitored_pd.step, Pd_session_component.alloc_signal_source_returned,
      Pd_session_component.alloc_signal_source_thrown]
  | free_signal_source cap =>
    simp [Monitored_pd.step, Pd_session_component.free_signal_source_parent_state]
  | alloc_context source imprint a =>
    cases a <;> simp [Monitored_pd.step, Pd_session_component.alloc_context_returned,
      Pd_session_component.alloc_context_thrown]
  | free_context cap =>
    simp [Monitored_pd.step, Pd_session_component.free_context_parent_state]
  | alloc_rpc_cap ep a =>
    cases a <;> simp [Monitored_pd.step, Pd_session_component.alloc_rpc_cap_returned,
      Pd_session_component.alloc_rpc_cap_thrown]
  | free_rpc_cap cap =>
    simp [Monitored_pd.step, Pd_session_component.free_rpc_cap_parent_state]

theorem step_native_caps (m : Monitored_pd) (c : Call) :
    (m.step c).pd._parent_state.native_caps =
      match c with
      | .alloc_rpc_cap ep (.returned h) =>
        { cap := h, ep := ep, bootstrapped := m.bootstrap_phase } :: m.pd._parent_state.native_caps
      | .free_rpc_cap cap =>
        m.pd._parent_state.native_caps.eraseP fun info => cap.local_name == info.cap.local_name
      | _ => m.pd._parent_state.native_caps := by
  cases c with
  | set_bootstrap_phase v => rfl
  | alloc_signal_source a =>
    cases a <;> simp [Monitored_pd.step, Pd_session_component.alloc_signal_source_returned,
      Pd_session_component.alloc_signal_source_thrown]
  | free_signal_source cap =>
    simp [Monitored_pd.step, Pd_session_component.free_signal_source_parent_state]
  | alloc_context source imprint a =>
    cases a <;> simp [Monitored_pd.step, Pd_session_component.alloc_context_returned,
      Pd_session_component.alloc_context_thrown]
  | free_context cap =>
    simp [Monitored_pd.step, Pd_session_component.free_context_parent_state]
  | alloc_rpc_cap ep a =>
    cases a <;> simp [Monitored_pd.step, Pd_session_component.alloc_rpc_cap_returned,
      Pd_session_component.alloc_rpc_cap_thrown]
  | free_rpc_cap cap =>
    simp [Monitored_pd.step, Pd_session_component.free_rpc_cap_parent_state]

theorem step_bootstrap_phase (m : Monitored_pd) (c : Call) :
    (m.step c).bootstrap_phase =
      match c with
      | .set_bootstrap_phase value => value
      | _ => m.bootstrap_phase := by
  cases c <;> rfl

/-! ## Single calls on a ledger -/

/-- C3: for every state of the component and every handle `h` answered by the real
service, `alloc_signal_source()`, `alloc_context(source, imprint)` and
`alloc_rpc_cap(ep)` return `h`, and the ledger of the call afterwards is the
previous list with one new entry in front that records `h`, the arguments of the
call and the value of the bootstrap flag during the call; the two other ledgers
are as before. -/
theorem alloc_returns_answer_and_records_it (self : Pd_session_component) (flag : Bool)
    (h source ep : Capability) (imprint : Nat) :
    ((self.alloc_signal_source flag (.returned h)).1 = .returned h ∧
      (self.alloc_signal_source flag (.returned h)).2._parent_state =
        { self._parent_state with
          signal_sources :=
            { cap := h, bootstrapped := flag } :: self._parent_state.signal_sources }) ∧
    ((self.alloc_context flag source imprint (.returned h)).1 = .returned h ∧
      (self.alloc_context flag source imprint (.returned h)).2._parent_state =
        { self._parent_state with
          signal_contexts :=
            { cap := h, source := source, imprint := imprint, bootstrapped := flag } ::
              self._parent_state.signal_contexts }) ∧
    ((self.alloc_rpc_cap flag ep (.returned h)).1 = .returned h ∧
      (self.alloc_rpc_cap flag ep (.returned h)).2._parent_state =
        { self._parent_state with
          native_caps :=
            { cap := h, ep := ep, bootstrapped := flag } :: self._parent_state.native_caps }) := by
  rw [Pd_session_component.alloc_signal_source_returned,
    Pd_session_component.alloc_context_returned, Pd_session_component.alloc_rpc_cap_returned]
  exact ⟨⟨rfl, rfl⟩, ⟨rfl, rfl⟩, ⟨rfl, rfl⟩⟩

/-- C4: when the ledger holds an entry with the badge of `h`, `free_signal_source(h)`
(likewise `free_context(h)` and `free_rpc_cap(h)`) unlinks one entry, which has
that badge, keeps all other entries of all ledgers in their order, and then makes
exactly one call on the real service, the free of `h`; nothing is reported. -/
theorem free_of_recorded_handle (self : Pd_session_component) (h : Capability) :
    ((∃ info ∈ self._parent_state.signal_sources, info.cap.local_name = h.local_name) →
      ∃ i, ∃ hi : i < self._parent_state.signal_sources.length,
        (self._parent_state.signal_sources.get ⟨i, hi⟩).cap.local_name = h.local_name ∧
        self.free_signal_source h =
          { self with
            _parent_state := { self._parent_state with
              signal_sources := self._parent_state.signal_sources.eraseIdx i }
            events := self.events ++
              [.lock .signal_sources, .lookup .signal_sources, .remove .signal_sources,
               .forward (.free_signal_source h), .unlock .signal_sources] }) ∧
    ((∃ info ∈ self._parent_state.signal_contexts, info.cap.local_name = h.local_name) →
      ∃ i, ∃ hi : i < self._parent_state.signal_contexts.length,
        (self._parent_state.signal_contexts.get ⟨i, hi⟩).cap.local_name = h.local_name ∧
        self.free_context h =
          { self with
            _parent_state := { self._parent_state with
              signal_contexts := self._parent_state.signal_contexts.eraseIdx i }
            events := self.events ++
              [.lock .signal_contexts, .lookup .signal_contexts, .remove .signal_contexts,
               .forward (.free_context h), .unlock .signal_contexts] }) ∧
    ((∃ info ∈ self._parent_state.native_caps, info.cap.local_name = h.local_name) →
      ∃ i, ∃ hi : i < self._parent_state.native_caps.length,
        (self._parent_state.native_caps.get ⟨i, hi⟩).cap.local_name = h.local_name ∧
        self.free_rpc_cap h =
          { self with
            _parent_state := { self._parent_state with
              native_caps := self._parent_state.native_caps.eraseIdx i }
            events := self.events ++
              [.lock .native_caps, .lookup .native_caps, .remove .native_caps,
               .forward (.free_rpc_cap h), .unlock .native_caps] }) := by
  refine ⟨?_, ?_, ?_⟩
  · rintro ⟨info, hmem, hb⟩
    have hex : ∃ x ∈ self._parent_state.signal_sources,
        (h.local_name == x.cap.local_name) = true := ⟨info, hmem, by simp [hb]⟩
    obtain ⟨i, hi, hhit, her⟩ := exists_erase_index _ _ hex
    refine ⟨i, hi, ?_, ?_⟩
    · have := hhit
      simp only [beq_iff_eq] at this
      exact this.symm
    · rw [Pd_session_component.free_signal_source_hit self h hex, her]
  · rintro ⟨info, hmem, hb⟩
    have hex : ∃ x ∈ self._parent_state.signal_contexts,
        (h.local_name == x.cap.local_name) = true := ⟨info, hmem, by simp [hb]⟩
    obtain ⟨i, hi, hhit, her⟩ := exists_erase_index _ _ hex
    refine ⟨i, hi, ?_, ?_⟩
    · have := hhit
      simp only [beq_iff_eq] at this
      exact this.symm
    · rw [Pd_session_component.free_context_hit self h hex, her]
  · rintro ⟨info, hmem, hb⟩
    have hex : ∃ x ∈ self._parent_state.native_caps,
        (h.local_name == x.cap.local_name) = true := ⟨info, hmem, by simp [hb]⟩
    obtain ⟨i, hi, hhit, her⟩ := exists_erase_index _ _ hex
    refine ⟨i, hi, ?_, ?_⟩
    · have := hhit
      simp only [beq_iff_eq] at this
      exact this.symm
    · rw [Pd_session_component.free_rpc_cap_hit self h hex, her]

/-- Instance of `free_of_recorded_handle`: a component whose three ledgers each hold
an entry with badge 7, and the handle with badge 7. -/
theorem free_of_recorded_handle_witness :
    ((∃ info ∈ (⟨⟨1, 0⟩,
        ⟨[⟨⟨7, 0⟩, true⟩], [⟨⟨7, 0⟩, ⟨3, 0⟩, 9, false⟩],
         [⟨⟨8, 0⟩, ⟨5, 0⟩, false⟩, ⟨⟨7, 0⟩, ⟨4, 0⟩, true⟩], ""⟩,
        ⟨⟨10, 0⟩, ⟨20, 0⟩, ⟨[]⟩⟩, ⟨⟨11, 0⟩, ⟨21, 0⟩, ⟨[]⟩⟩, ⟨⟨12, 0⟩, ⟨22, 0⟩, ⟨[]⟩⟩, []⟩ :
        Pd_session_component)._parent_state.signal_sources, info.cap.local_name = (⟨7, 0⟩ : Capability).local_name) ∧
      (∃ i, ∃ hi : i < (⟨⟨1, 0⟩,
        ⟨[⟨⟨7, 0⟩, true⟩], [⟨⟨7, 0⟩, ⟨3, 0⟩, 9, false⟩],
         [⟨⟨8, 0⟩, ⟨5, 0⟩, false⟩, ⟨⟨7, 0⟩, ⟨4, 0⟩, true⟩], ""⟩,
        ⟨⟨10, 0⟩, ⟨20, 0⟩, ⟨[]⟩⟩, ⟨⟨11, 0⟩, ⟨21, 0⟩, ⟨[]⟩⟩, ⟨⟨12, 0⟩, ⟨22, 0⟩, ⟨[]⟩⟩, []⟩ :
        Pd_session_component)._parent_state.signal_sources.length,
        ((⟨⟨1, 0⟩,
        ⟨[⟨⟨7, 0⟩, true⟩], [⟨⟨7, 0⟩, ⟨3, 0⟩, 9, false⟩],
         [⟨⟨8, 0⟩, ⟨5, 0⟩, false⟩, ⟨⟨7, 0⟩, ⟨4, 0⟩, true⟩], ""⟩,
        ⟨⟨10, 0⟩, ⟨20, 0⟩, ⟨[]⟩⟩, ⟨⟨11, 0⟩, ⟨21, 0⟩, ⟨[]⟩⟩, ⟨⟨12, 0⟩, ⟨22, 0⟩, ⟨[]⟩⟩, []⟩ :
        Pd_session_component)._parent_state.signal_sources.get ⟨i, hi⟩).cap.local_name = (⟨7, 0⟩ : Capability).local_name ∧
        (⟨⟨1, 0⟩,
        ⟨[⟨⟨7, 0⟩, true⟩], [⟨⟨7, 0⟩, ⟨3, 0⟩, 9, false⟩],
         [⟨⟨8, 0⟩, ⟨5, 0⟩, false⟩, ⟨⟨7, 0⟩, ⟨4, 0⟩, true⟩], ""⟩,
        ⟨⟨10, 0⟩, ⟨20, 0⟩, ⟨[]⟩⟩, ⟨⟨11, 0⟩, ⟨21, 0⟩, ⟨[]⟩⟩, ⟨⟨12, 0⟩, ⟨22, 0⟩, ⟨[]⟩⟩, []⟩ :
        Pd_session_component).free_signal_source (⟨7, 0⟩ : Capability) =
          { (⟨⟨1, 0⟩,
        ⟨[⟨⟨7, 0⟩, true⟩], [⟨⟨7, 0⟩, ⟨3, 0⟩, 9, false⟩],
         [⟨⟨8, 0⟩, ⟨5, 0⟩, false⟩, ⟨⟨7, 0⟩, ⟨4, 0⟩, true⟩], ""⟩,
        ⟨⟨10, 0⟩, ⟨20, 0⟩, ⟨[]⟩⟩, ⟨⟨11, 0⟩, ⟨21, 0⟩, ⟨[]⟩⟩, ⟨⟨12, 0⟩, ⟨22, 0⟩, ⟨[]⟩⟩, []⟩ :
        Pd_session_component) with
            _parent_state := { (⟨⟨1, 0⟩,
        ⟨[⟨⟨7, 0⟩, true⟩], [⟨⟨7, 0⟩, ⟨3, 0⟩, 9, false⟩],
         [⟨⟨8, 0⟩, ⟨5, 0⟩, false⟩, ⟨⟨7, 0⟩, ⟨4, 0⟩, true⟩], ""⟩,
        ⟨⟨10, 0⟩, ⟨20, 0⟩, ⟨[]⟩⟩, ⟨⟨11, 0⟩, ⟨21, 0⟩, ⟨[]⟩⟩, ⟨⟨12, 0⟩, ⟨22, 0⟩, ⟨[]⟩⟩, []⟩ :
        Pd_session_component)._parent_state with
              signal_sources := (⟨⟨1, 0⟩,
        ⟨[⟨⟨7, 0⟩, true⟩], [⟨⟨7, 0⟩, ⟨3, 0⟩, 9, false⟩],
         [⟨⟨8, 0⟩, ⟨5, 0⟩, false⟩, ⟨⟨7, 0⟩, ⟨4, 0⟩, true⟩], ""⟩,
        ⟨⟨10, 0⟩, ⟨20, 0⟩, ⟨[]⟩⟩, ⟨⟨11, 0⟩, ⟨21, 0⟩, ⟨[]⟩⟩, ⟨⟨12, 0⟩, ⟨22, 0⟩, ⟨[]⟩⟩, []⟩ :
        Pd_session_component)._parent_state.signal_sources.eraseIdx i }
            events := (⟨⟨1, 0⟩,
        ⟨[⟨⟨7, 0⟩, true⟩], [⟨⟨7, 0⟩, ⟨3, 0⟩, 9, false⟩],
         [⟨⟨8, 0⟩, ⟨5, 0⟩, false⟩, ⟨⟨7, 0⟩, ⟨4, 0⟩, true⟩], ""⟩,
        ⟨⟨10, 0⟩, ⟨20, 0⟩, ⟨[]⟩⟩, ⟨⟨11, 0⟩, ⟨21, 0⟩, ⟨[]⟩⟩, ⟨⟨12, 0⟩, ⟨22, 0⟩, ⟨[]⟩⟩, []⟩ :
        Pd_session_component).events ++
              [.lock .signal_sources, .lookup .signal_sources, .remove .signal_sources,
               .forward (.free_signal_source (⟨7, 0⟩ : Capability)), .unlock .signal_sources] })) ∧
    ((∃ info ∈ (⟨⟨1, 0⟩,
        ⟨[⟨⟨7, 0⟩, true⟩], [⟨⟨7, 0⟩, ⟨3, 0⟩, 9, false⟩],
         [⟨⟨8, 0⟩, ⟨5, 0⟩, false⟩, ⟨⟨7, 0⟩, ⟨4, 0⟩, true⟩], ""⟩,
        ⟨⟨10, 0⟩, ⟨20, 0⟩, ⟨[]⟩⟩, ⟨⟨11, 0⟩, ⟨21, 0⟩, ⟨[]⟩⟩, ⟨⟨12, 0⟩, ⟨22, 0⟩, ⟨[]⟩⟩, []⟩ :
        Pd_session_component)._parent_state.signal_contexts, info.cap.local_name = (⟨7, 0⟩ : Capability).local_name) ∧
      (∃ i, ∃ hi : i < (⟨⟨1, 0⟩,
        ⟨[⟨⟨7, 0⟩, true⟩], [⟨⟨7, 0⟩, ⟨3, 0⟩, 9, false⟩],
         [⟨⟨8, 0⟩, ⟨5, 0⟩, false⟩, ⟨⟨7, 0⟩, ⟨4, 0⟩, true⟩], ""⟩,
        ⟨⟨10, 0⟩, ⟨20, 0⟩, ⟨[]⟩⟩, ⟨⟨11, 0⟩, ⟨21, 0⟩, ⟨[]⟩⟩, ⟨⟨12, 0⟩, ⟨22, 0⟩, ⟨[]⟩⟩, []⟩ :
        Pd_session_component)._parent_state.signal_contexts.length,
        ((⟨⟨1, 0⟩,
        ⟨[⟨⟨7, 0⟩, true⟩], [⟨⟨7, 0⟩, ⟨3, 0⟩, 9, false⟩],
         [⟨⟨8, 0⟩, ⟨5, 0⟩, false⟩, ⟨⟨7, 0⟩, ⟨4, 0⟩, true⟩], ""⟩,
        ⟨⟨10, 0⟩, ⟨20, 0⟩, ⟨[]⟩⟩, ⟨⟨11, 0⟩, ⟨21, 0⟩, ⟨[]⟩⟩, ⟨⟨12, 0⟩, ⟨22, 0⟩, ⟨[]⟩⟩, []⟩ :
        Pd_session_component)._parent_state.signal_contexts.get ⟨i, hi⟩).cap.local_name = (⟨7, 0⟩ : Capability).local_name ∧
        (⟨⟨1, 0⟩,
        ⟨[⟨⟨7, 0⟩, true⟩], [⟨⟨7, 0⟩, ⟨3, 0⟩, 9, false⟩],
         [⟨⟨8, 0⟩, ⟨5, 0⟩, false⟩, ⟨⟨7, 0⟩, ⟨4, 0⟩, true⟩], ""⟩,
        ⟨⟨10, 0⟩, ⟨20, 0⟩, ⟨[]⟩⟩, ⟨⟨11, 0⟩, ⟨21, 0⟩, ⟨[]⟩⟩, ⟨⟨12, 0⟩, ⟨22, 0⟩, ⟨[]⟩⟩, []⟩ :
        Pd_session_component).free_context (⟨7, 0⟩ : Capability) =
          { (⟨⟨1, 0⟩,
        ⟨[⟨⟨7, 0⟩, true⟩], [⟨⟨7, 0⟩, ⟨3, 0⟩, 9, false⟩],
         [⟨⟨8, 0⟩, ⟨5, 0⟩, false⟩, ⟨⟨7, 0⟩, ⟨4, 0⟩, true⟩], ""⟩,
        ⟨⟨10, 0⟩, ⟨20, 0⟩, ⟨[]⟩⟩, ⟨⟨11, 0⟩, ⟨21, 0⟩, ⟨[]⟩⟩, ⟨⟨12, 0⟩, ⟨22, 0⟩, ⟨[]⟩⟩, []⟩ :
        Pd_session_component) with
            _parent_state := { (⟨⟨1, 0⟩,
        ⟨[⟨⟨7, 0⟩, true⟩], [⟨⟨7, 0⟩, ⟨3, 0⟩, 9, false⟩],
         [⟨⟨8, 0⟩, ⟨5, 0⟩, false⟩, ⟨⟨7, 0⟩, ⟨4, 0⟩, true⟩], ""⟩,
        ⟨⟨10, 0⟩, ⟨20, 0⟩, ⟨[]⟩⟩, ⟨⟨11, 0⟩, ⟨21, 0⟩, ⟨[]⟩⟩, ⟨⟨12, 0⟩, ⟨22, 0⟩, ⟨[]⟩⟩, []⟩ :
        Pd_session_component)._parent_state with
              signal_contexts := (⟨⟨1, 0⟩,
        ⟨[⟨⟨7, 0⟩, true⟩], [⟨⟨7, 0⟩, ⟨3, 0⟩, 9, false⟩],
         [⟨⟨8, 0⟩, ⟨5, 0⟩, false⟩, ⟨⟨7, 0⟩, ⟨4, 0⟩, true⟩], ""⟩,
        ⟨⟨10, 0⟩, ⟨20, 0⟩, ⟨[]⟩⟩, ⟨⟨11, 0⟩, ⟨21, 0⟩, ⟨[]⟩⟩, ⟨⟨12, 0⟩, ⟨22, 0⟩, ⟨[]⟩⟩, []⟩ :
        Pd_session_component)._parent_state.signal_contexts.eraseIdx i }
            events := (⟨⟨1, 0⟩,
        ⟨[⟨⟨7, 0⟩, true⟩], [⟨⟨7, 0⟩, ⟨3, 0⟩, 9, false⟩],
         [⟨⟨8, 0⟩, ⟨5, 0⟩, false⟩, ⟨⟨7, 0⟩, ⟨4, 0⟩, true⟩], ""⟩,
        ⟨⟨10, 0⟩, ⟨20, 0⟩, ⟨[]⟩⟩, ⟨⟨11, 0⟩, ⟨21, 0⟩, ⟨[]⟩⟩, ⟨⟨12, 0⟩, ⟨22, 0⟩, ⟨[]⟩⟩, []⟩ :
        Pd_session_component).events ++
              [.lock .signal_contexts, .lookup .signal_contexts, .remove .signal_contexts,
               .forward (.free_context (⟨7, 0⟩ : Capability)), .unlock .signal_contexts] })) ∧
    ((∃ info ∈ (⟨⟨1, 0⟩,
        ⟨[⟨⟨7, 0⟩, true⟩], [⟨⟨7, 0⟩, ⟨3, 0⟩, 9, false⟩],
         [⟨⟨8, 0⟩, ⟨5, 0⟩, false⟩, ⟨⟨7, 0⟩, ⟨4, 0⟩, true⟩], ""⟩,
        ⟨⟨10, 0⟩, ⟨20, 0⟩, ⟨[]⟩⟩, ⟨⟨11, 0⟩, ⟨21, 0⟩, ⟨[]⟩⟩, ⟨⟨12, 0⟩, ⟨22, 0⟩, ⟨[]⟩⟩, []⟩ :
        Pd_session_component)._parent_state.native_caps, info.cap.local_name = (⟨7, 0⟩ : Capability).local_name) ∧
      (∃ i, ∃ hi : i < (⟨⟨1, 0⟩,
        ⟨[⟨⟨7, 0⟩, true⟩], [⟨⟨7, 0⟩, ⟨3, 0⟩, 9, false⟩],
         [⟨⟨8, 0⟩, ⟨5, 0⟩, false⟩, ⟨⟨7, 0⟩, ⟨4, 0⟩, true⟩], ""⟩,
        ⟨⟨10, 0⟩, ⟨20, 0⟩, ⟨[]⟩⟩, ⟨⟨11, 0⟩, ⟨21, 0⟩, ⟨[]⟩⟩, ⟨⟨12, 0⟩, ⟨22, 0⟩, ⟨[]⟩⟩, []⟩ :
        Pd_session_component)._parent_state.native_caps.length,
        ((⟨⟨1, 0⟩,
        ⟨[⟨⟨7, 0⟩, true⟩], [⟨⟨7, 0⟩, ⟨3, 0⟩, 9, false⟩],
         [⟨⟨8, 0⟩, ⟨5, 0⟩, false⟩, ⟨⟨7, 0⟩, ⟨4, 0⟩, true⟩], ""⟩,
        ⟨⟨10, 0⟩, ⟨20, 0⟩, ⟨[]⟩⟩, ⟨⟨11, 0⟩, ⟨21, 0⟩, ⟨[]⟩⟩, ⟨⟨12, 0⟩, ⟨22, 0⟩, ⟨[]⟩⟩, []⟩ :
        Pd_session_component)._parent_state.native_caps.get ⟨i, hi⟩).cap.local_name = (⟨7, 0⟩ : Capability).local_name ∧
        (⟨⟨1, 0⟩,
        ⟨[⟨⟨7, 0⟩, true⟩], [⟨⟨7, 0⟩, ⟨3, 0⟩, 9, false⟩],
         [⟨⟨8, 0⟩, ⟨5, 0⟩, false⟩, ⟨⟨7, 0⟩, ⟨4, 0⟩, true⟩], ""⟩,
        ⟨⟨10, 0⟩, ⟨20, 0⟩, ⟨[]⟩⟩, ⟨⟨11, 0⟩, ⟨21, 0⟩, ⟨[]⟩⟩, ⟨⟨12, 0⟩, ⟨22, 0⟩, ⟨[]⟩⟩, []⟩ :
        Pd_session_component).free_rpc_cap (⟨7, 0⟩ : Capability) =
          { (⟨⟨1, 0⟩,
        ⟨[⟨⟨7, 0⟩, true⟩], [⟨⟨7, 0⟩, ⟨3, 0⟩, 9, false⟩],
         [⟨⟨8, 0⟩, ⟨5, 0⟩, false⟩, ⟨⟨7, 0⟩, ⟨4, 0⟩, true⟩], ""⟩,
        ⟨⟨10, 0⟩, ⟨20, 0⟩, ⟨[]⟩⟩, ⟨⟨11, 0⟩, ⟨21, 0⟩, ⟨[]⟩⟩, ⟨⟨12, 0⟩, ⟨22, 0⟩, ⟨[]⟩⟩, []⟩ :
        Pd_session_component) with
            _parent_state := { (⟨⟨1, 0⟩,
        ⟨[⟨⟨7, 0⟩, true⟩], [⟨⟨7, 0⟩, ⟨3, 0⟩, 9, false⟩],
         [⟨⟨8, 0⟩, ⟨5, 0⟩, false⟩, ⟨⟨7, 0⟩, ⟨4, 0⟩, true⟩], ""⟩,
        ⟨⟨10, 0⟩, ⟨20, 0⟩, ⟨[]⟩⟩, ⟨⟨11, 0⟩, ⟨21, 0⟩, ⟨[]⟩⟩, ⟨⟨12, 0⟩, ⟨22, 0⟩, ⟨[]⟩⟩, []⟩ :
        Pd_session_component)._parent_state with
              native_caps := (⟨⟨1, 0⟩,
        ⟨[⟨⟨7, 0⟩, true⟩], [⟨⟨7, 0⟩, ⟨3, 0⟩, 9, false⟩],
         [⟨⟨8, 0⟩, ⟨5, 0⟩, false⟩, ⟨⟨7, 0⟩, ⟨4, 0⟩, true⟩], ""⟩,
        ⟨⟨10, 0⟩, ⟨20, 0⟩, ⟨[]⟩⟩, ⟨⟨11, 0⟩, ⟨21, 0⟩, ⟨[]⟩⟩, ⟨⟨12, 0⟩, ⟨22, 0⟩, ⟨[]⟩⟩, []⟩ :
        Pd_session_component)._parent_state.native_caps.eraseIdx i }
            events := (⟨⟨1, 0⟩,
        ⟨[⟨⟨7, 0⟩, true⟩], [⟨⟨7, 0⟩, ⟨3, 0⟩, 9, false⟩],
         [⟨⟨8, 0⟩, ⟨5, 0⟩, false⟩, ⟨⟨7, 0⟩, ⟨4, 0⟩, true⟩], ""⟩,
        ⟨⟨10, 0⟩, ⟨20, 0⟩, ⟨[]⟩⟩, ⟨⟨11, 0⟩, ⟨21, 0⟩, ⟨[]⟩⟩, ⟨⟨12, 0⟩, ⟨22, 0⟩, ⟨[]⟩⟩, []⟩ :
        Pd_session_component).events ++
              [.lock .native_caps, .lookup .native_caps, .remove .native_caps,
               .forward (.free_rpc_cap (⟨7, 0⟩ : Capability)), .unlock .native_caps] })) :=
  have hs : ∃ info ∈ (⟨⟨1, 0⟩,
        ⟨[⟨⟨7, 0⟩, true⟩], [⟨⟨7, 0⟩, ⟨3, 0⟩, 9, false⟩],
         [⟨⟨8, 0⟩, ⟨5, 0⟩, false⟩, ⟨⟨7, 0⟩, ⟨4, 0⟩, true⟩], ""⟩,
        ⟨⟨10, 0⟩, ⟨20, 0⟩, ⟨[]⟩⟩, ⟨⟨11, 0⟩, ⟨21, 0⟩, ⟨[]⟩⟩, ⟨⟨12, 0⟩, ⟨22, 0⟩, ⟨[]⟩⟩, []⟩ :
        Pd_session_component)._parent_state.signal_sources, info.cap.local_name = (⟨7, 0⟩ : Capability).local_name :=
    ⟨_, List.mem_cons_self _ _, rfl⟩
  have hc : ∃ info ∈ (⟨⟨1, 0⟩,
        ⟨[⟨⟨7, 0⟩, true⟩], [⟨⟨7, 0⟩, ⟨3, 0⟩, 9, false⟩],
         [⟨⟨8, 0⟩, ⟨5, 0⟩, false⟩, ⟨⟨7, 0⟩, ⟨4, 0⟩, true⟩], ""⟩,
        ⟨⟨10, 0⟩, ⟨20, 0⟩, ⟨[]⟩⟩, ⟨⟨11, 0⟩, ⟨21, 0⟩, ⟨[]⟩⟩, ⟨⟨12, 0⟩, ⟨22, 0⟩, ⟨[]⟩⟩, []⟩ :
        Pd_session_component)._parent_state.signal_contexts, info.cap.local_name = (⟨7, 0⟩ : Capability).local_name :=
    ⟨_, List.mem_cons_self _ _, rfl⟩
  have hn : ∃ info ∈ (⟨⟨1, 0⟩,
        ⟨[⟨⟨7, 0⟩, true⟩], [⟨⟨7, 0⟩, ⟨3, 0⟩, 9, false⟩],
         [⟨⟨8, 0⟩, ⟨5, 0⟩, false⟩, ⟨⟨7, 0⟩, ⟨4, 0⟩, true⟩], ""⟩,
        ⟨⟨10, 0⟩, ⟨20, 0⟩, ⟨[]⟩⟩, ⟨⟨11, 0⟩, ⟨21, 0⟩, ⟨[]⟩⟩, ⟨⟨12, 0⟩, ⟨22, 0⟩, ⟨[]⟩⟩, []⟩ :
        Pd_session_component)._parent_state.native_caps, info.cap.local_name = (⟨7, 0⟩ : Capability).local_name :=
    ⟨_, List.mem_cons_of_mem _ (List.mem_cons_self _ _), rfl⟩
  ⟨⟨hs, (free_of_recorded_handle (⟨⟨1, 0⟩,
        ⟨[⟨⟨7, 0⟩, true⟩], [⟨⟨7, 0⟩, ⟨3, 0⟩, 9, false⟩],
         [⟨⟨8, 0⟩, ⟨5, 0⟩, false⟩, ⟨⟨7, 0⟩, ⟨4, 0⟩, true⟩], ""⟩,
        ⟨⟨10, 0⟩, ⟨20, 0⟩, ⟨[]⟩⟩, ⟨⟨11, 0⟩, ⟨21, 0⟩, ⟨[]⟩⟩, ⟨⟨12, 0⟩, ⟨22, 0⟩, ⟨[]⟩⟩, []⟩ :
        Pd_session_component) (⟨7, 0⟩ : Capability)).1 hs⟩,
   ⟨hc, (free_of_recorded_handle (⟨⟨1, 0⟩,
        ⟨[⟨⟨7, 0⟩, true⟩], [⟨⟨7, 0⟩, ⟨3, 0⟩, 9, false⟩],
         [⟨⟨8, 0⟩, ⟨5, 0⟩, false⟩, ⟨⟨7, 0⟩, ⟨4, 0⟩, true⟩], ""⟩,
        ⟨⟨10, 0⟩, ⟨20, 0⟩, ⟨[]⟩⟩, ⟨⟨11, 0⟩, ⟨21, 0⟩, ⟨[]⟩⟩, ⟨⟨12, 0⟩, ⟨22, 0⟩, ⟨[]⟩⟩, []⟩ :
        Pd_session_component) (⟨7, 0⟩ : Capability)).2.1 hc⟩,
   ⟨hn, (free_of_recorded_handle (⟨⟨1, 0⟩,
        ⟨[⟨⟨7, 0⟩, true⟩], [⟨⟨7, 0⟩, ⟨3, 0⟩, 9, false⟩],
         [⟨⟨8, 0⟩, ⟨5, 0⟩, false⟩, ⟨⟨7, 0⟩, ⟨4, 0⟩, true⟩], ""⟩,
        ⟨⟨10, 0⟩, ⟨20, 0⟩, ⟨[]⟩⟩, ⟨⟨11, 0⟩, ⟨21, 0⟩, ⟨[]⟩⟩, ⟨⟨12, 0⟩, ⟨22, 0⟩, ⟨[]⟩⟩, []⟩ :
        Pd_session_component) (⟨7, 0⟩ : Capability)).2.2 hn⟩⟩

theorem eraseP_of_countP_one {α : Type} (hit : α → Bool) (l : List α)
    (h : l.countP hit = 1) :
    (∃ x ∈ l, hit x = true) ∧ ∀ x ∈ l.eraseP hit, hit x = false := by
  induction l with
  | nil => simp at h
  | cons a l ih =>
    by_cases ha : hit a = true
    · rw [List.countP_cons_of_pos _ _ ha] at h
      have h0 : l.countP hit = 0 := by omega
      rw [List.countP_eq_zero] at h0
      refine ⟨⟨a, List.mem_cons_self _ _, ha⟩, ?_⟩
      intro x hx
      rw [List.eraseP_cons_of_pos ha] at hx
      simpa using h0 x hx
    · rw [List.countP_cons_of_neg _ _ ha] at h
      obtain ⟨⟨x, hx, hhit⟩, hrest⟩ := ih h
      refine ⟨⟨x, List.mem_cons_of_mem _ hx, hhit⟩, ?_⟩
      intro y hy
      rw [List.eraseP_cons_of_neg ha] at hy
      rcases List.mem_cons.mp hy with rfl | hy
      · simpa using ha
      · exact hrest y hy

/-- C5 (as amended): when the ledger holds no entry with the badge of `h`,
`free_signal_source(h)`, `free_context(h)` and `free_rpc_cap(h)` return with all
ledgers as they were, one inconsistency report and no call on the real service.
When the native-capability ledger holds exactly one entry with the badge of `h`,
the first `free_rpc_cap(h)` is forwarded and a second one directly after it is
such a reported miss. -/
theorem free_of_unrecorded_handle (self : Pd_session_component) (h : Capability) :
    ((∀ info ∈ self._parent_state.signal_sources, info.cap.local_name ≠ h.local_name) →
      self.free_signal_source h =
        { self with events := self.events ++
            [.lock .signal_sources, .lookup .signal_sources, .error, .unlock .signal_sources] }) ∧
    ((∀ info ∈ self._parent_state.signal_contexts, info.cap.local_name ≠ h.local_name) →
      self.free_context h =
        { self with events := self.events ++
            [.lock .signal_contexts, .lookup .signal_contexts, .error, .unlock .signal_contexts] }) ∧
    ((∀ info ∈ self._parent_state.native_caps, info.cap.local_name ≠ h.local_name) →
      self.free_rpc_cap h =
        { self with events := self.events ++
            [.lock .native_caps, .lookup .native_caps, .error, .unlock .native_caps] }) ∧
    (self._parent_state.native_caps.countP (fun info => h.local_name == info.cap.local_name) = 1 →
      (self.free_rpc_cap h).events = self.events ++
        [.lock .native_caps, .lookup .native_caps, .remove .native_caps,
         .forward (.free_rpc_cap h), .unlock .native_caps] ∧
      (self.free_rpc_cap h).free_rpc_cap h =
        { self.free_rpc_cap h with events := (self.free_rpc_cap h).events ++
            [.lock .native_caps, .lookup .native_caps, .error, .unlock .native_caps] }) := by
  refine ⟨?_, ?_, ?_, ?_⟩
  · intro hmiss
    exact Pd_session_component.free_signal_source_miss self h
      (fun info hmem => by simpa using Ne.symm (hmiss info hmem))
  · intro hmiss
    exact Pd_session_component.free_context_miss self h
      (fun info hmem => by simpa using Ne.symm (hmiss info hmem))
  · intro hmiss
    exact Pd_session_component.free_rpc_cap_miss self h
      (fun info hmem => by simpa using Ne.symm (hmiss info hmem))
  · intro hone
    obtain ⟨hex, hgone⟩ := eraseP_of_countP_one _ _ hone
    refine ⟨?_, ?_⟩
    · rw [Pd_session_component.free_rpc_cap_hit self h hex]
    · apply Pd_session_component.free_rpc_cap_miss
      rw [Pd_session_component.free_rpc_cap_parent_state]
      exact hgone

/-- Instance of `free_of_unrecorded_handle`: the handle with badge 7 on ledgers that
hold badge 8 only, and on a native-capability ledger that holds badges 8 and 7. -/
theorem free_of_unrecorded_handle_witness :
    ((∀ info ∈ (⟨⟨1, 0⟩, ⟨[⟨⟨8, 0⟩, true⟩], [], [⟨⟨8, 0⟩, ⟨5, 0⟩, false⟩], ""⟩,
        ⟨⟨10, 0⟩, ⟨20, 0⟩, ⟨[]⟩⟩, ⟨⟨11, 0⟩, ⟨21, 0⟩, ⟨[]⟩⟩, ⟨⟨12, 0⟩, ⟨22, 0⟩, ⟨[]⟩⟩, []⟩ :
        Pd_session_component)._parent_state.signal_sources, info.cap.local_name ≠ (⟨7, 0⟩ : Capability).local_name) ∧
      (⟨⟨1, 0⟩, ⟨[⟨⟨8, 0⟩, true⟩], [], [⟨⟨8, 0⟩, ⟨5, 0⟩, false⟩], ""⟩,
        ⟨⟨10, 0⟩, ⟨20, 0⟩, ⟨[]⟩⟩, ⟨⟨11, 0⟩, ⟨21, 0⟩, ⟨[]⟩⟩, ⟨⟨12, 0⟩, ⟨22, 0⟩, ⟨[]⟩⟩, []⟩ :
        Pd_session_component).free_signal_source (⟨7, 0⟩ : Capability) =
        { (⟨⟨1, 0⟩, ⟨[⟨⟨8, 0⟩, true⟩], [], [⟨⟨8, 0⟩, ⟨5, 0⟩, false⟩], ""⟩,
        ⟨⟨10, 0⟩, ⟨20, 0⟩, ⟨[]⟩⟩, ⟨⟨11, 0⟩, ⟨21, 0⟩, ⟨[]⟩⟩, ⟨⟨12, 0⟩, ⟨22, 0⟩, ⟨[]⟩⟩, []⟩ :
        Pd_session_component) with events := (⟨⟨1, 0⟩, ⟨[⟨⟨8, 0⟩, true⟩], [], [⟨⟨8, 0⟩, ⟨5, 0⟩, false⟩], ""⟩,
        ⟨⟨10, 0⟩, ⟨20, 0⟩, ⟨[]⟩⟩, ⟨⟨11, 0⟩, ⟨21, 0⟩, ⟨[]⟩⟩, ⟨⟨12, 0⟩, ⟨22, 0⟩, ⟨[]⟩⟩, []⟩ :
        Pd_session_component).events ++
            [.lock .signal_sources, .lookup .signal_sources, .error, .unlock .signal_sources] }) ∧
    ((∀ info ∈ (⟨⟨1, 0⟩, ⟨[⟨⟨8, 0⟩, true⟩], [], [⟨⟨8, 0⟩, ⟨5, 0⟩, false⟩], ""⟩,
        ⟨⟨10, 0⟩, ⟨20, 0⟩, ⟨[]⟩⟩, ⟨⟨11, 0⟩, ⟨21, 0⟩, ⟨[]⟩⟩, ⟨⟨12, 0⟩, ⟨22, 0⟩, ⟨[]⟩⟩, []⟩ :
        Pd_session_component)._parent_state.signal_contexts, info.cap.local_name ≠ (⟨7, 0⟩ : Capability).local_name) ∧
      (⟨⟨1, 0⟩, ⟨[⟨⟨8, 0⟩, true⟩], [], [⟨⟨8, 0⟩, ⟨5, 0⟩, false⟩], ""⟩,
        ⟨⟨10, 0⟩, ⟨20, 0⟩, ⟨[]⟩⟩, ⟨⟨11, 0⟩, ⟨21, 0⟩, ⟨[]⟩⟩, ⟨⟨12, 0⟩, ⟨22, 0⟩, ⟨[]⟩⟩, []⟩ :
        Pd_session_component).free_context (⟨7, 0⟩ : Capability) =
        { (⟨⟨1, 0⟩, ⟨[⟨⟨8, 0⟩, true⟩], [], [⟨⟨8, 0⟩, ⟨5, 0⟩, false⟩], ""⟩,
        ⟨⟨10, 0⟩, ⟨20, 0⟩, ⟨[]⟩⟩, ⟨⟨11, 0⟩, ⟨21, 0⟩, ⟨[]⟩⟩, ⟨⟨12, 0⟩, ⟨22, 0⟩, ⟨[]⟩⟩, []⟩ :
        Pd_session_component) with events := (⟨⟨1, 0⟩, ⟨[⟨⟨8, 0⟩, true⟩], [], [⟨⟨8, 0⟩, ⟨5, 0⟩, false⟩], ""⟩,
        ⟨⟨10, 0⟩, ⟨20, 0⟩, ⟨[]⟩⟩, ⟨⟨11, 0⟩, ⟨21, 0⟩, ⟨[]⟩⟩, ⟨⟨12, 0⟩, ⟨22, 0⟩, ⟨[]⟩⟩, []⟩ :
        Pd_session_component).events ++
            [.lock .signal_contexts, .lookup .signal_contexts, .error, .unlock .signal_contexts] }) ∧
    ((∀ info ∈ (⟨⟨1, 0⟩, ⟨[⟨⟨8, 0⟩, true⟩], [], [⟨⟨8, 0⟩, ⟨5, 0⟩, false⟩], ""⟩,
        ⟨⟨10, 0⟩, ⟨20, 0⟩, ⟨[]⟩⟩, ⟨⟨11, 0⟩, ⟨21, 0⟩, ⟨[]⟩⟩, ⟨⟨12, 0⟩, ⟨22, 0⟩, ⟨[]⟩⟩, []⟩ :
        Pd_session_component)._parent_state.native_caps, info.cap.local_name ≠ (⟨7, 0⟩ : Capability).local_name) ∧
      (⟨⟨1, 0⟩, ⟨[⟨⟨8, 0⟩, true⟩], [], [⟨⟨8, 0⟩, ⟨5, 0⟩, false⟩], ""⟩,
        ⟨⟨10, 0⟩, ⟨20, 0⟩, ⟨[]⟩⟩, ⟨⟨11, 0⟩, ⟨21, 0⟩, ⟨[]⟩⟩, ⟨⟨12, 0⟩, ⟨22, 0⟩, ⟨[]⟩⟩, []⟩ :
        Pd_session_component).free_rpc_cap (⟨7, 0⟩ : Capability) =
        { (⟨⟨1, 0⟩, ⟨[⟨⟨8, 0⟩, true⟩], [], [⟨⟨8, 0⟩, ⟨5, 0⟩, false⟩], ""⟩,
        ⟨⟨10, 0⟩, ⟨20, 0⟩, ⟨[]⟩⟩, ⟨⟨11, 0⟩, ⟨21, 0⟩, ⟨[]⟩⟩, ⟨⟨12, 0⟩, ⟨22, 0⟩, ⟨[]⟩⟩, []⟩ :
        Pd_session_component) with events := (⟨⟨1, 0⟩, ⟨[⟨⟨8, 0⟩, true⟩], [], [⟨⟨8, 0⟩, ⟨5, 0⟩, false⟩], ""⟩,
        ⟨⟨10, 0⟩, ⟨20, 0⟩, ⟨[]⟩⟩, ⟨⟨11, 0⟩, ⟨21, 0⟩, ⟨[]⟩⟩, ⟨⟨12, 0⟩, ⟨22, 0⟩, ⟨[]⟩⟩, []⟩ :
        Pd_session_component).events ++
            [.lock .native_caps, .lookup .native_caps, .error, .unlock .native_caps] }) ∧
    ((⟨⟨1, 0⟩,
        ⟨[⟨⟨8, 0⟩, true⟩], [], [⟨⟨8, 0⟩, ⟨5, 0⟩, false⟩, ⟨⟨7, 0⟩, ⟨4, 0⟩, true⟩], ""⟩,
        ⟨⟨10, 0⟩, ⟨20, 0⟩, ⟨[]⟩⟩, ⟨⟨11, 0⟩, ⟨21, 0⟩, ⟨[]⟩⟩, ⟨⟨12, 0⟩, ⟨22, 0⟩, ⟨[]⟩⟩, []⟩ :
        Pd_session_component)._parent_state.native_caps.countP
        (fun info => (⟨7, 0⟩ : Capability).local_name == info.cap.local_name) = 1 ∧
      ((⟨⟨1, 0⟩,
        ⟨[⟨⟨8, 0⟩, true⟩], [], [⟨⟨8, 0⟩, ⟨5, 0⟩, false⟩, ⟨⟨7, 0⟩, ⟨4, 0⟩, true⟩], ""⟩,
        ⟨⟨10, 0⟩, ⟨20, 0⟩, ⟨[]⟩⟩, ⟨⟨11, 0⟩, ⟨21, 0⟩, ⟨[]⟩⟩, ⟨⟨12, 0⟩, ⟨22, 0⟩, ⟨[]⟩⟩, []⟩ :
        Pd_session_component).free_rpc_cap (⟨7, 0⟩ : Capability)).free_rpc_cap (⟨7, 0⟩ : Capability) =
        { (⟨⟨1, 0⟩,
        ⟨[⟨⟨8, 0⟩, true⟩], [], [⟨⟨8, 0⟩, ⟨5, 0⟩, false⟩, ⟨⟨7, 0⟩, ⟨4, 0⟩, true⟩], ""⟩,
        ⟨⟨10, 0⟩, ⟨20, 0⟩, ⟨[]⟩⟩, ⟨⟨11, 0⟩, ⟨21, 0⟩, ⟨[]⟩⟩, ⟨⟨12, 0⟩, ⟨22, 0⟩, ⟨[]⟩⟩, []⟩ :
        Pd_session_component).free_rpc_cap (⟨7, 0⟩ : Capability) with
          events := ((⟨⟨1, 0⟩,
        ⟨[⟨⟨8, 0⟩, true⟩], [], [⟨⟨8, 0⟩, ⟨5, 0⟩, false⟩, ⟨⟨7, 0⟩, ⟨4, 0⟩, true⟩], ""⟩,
        ⟨⟨10, 0⟩, ⟨20, 0⟩, ⟨[]⟩⟩, ⟨⟨11, 0⟩, ⟨21, 0⟩, ⟨[]⟩⟩, ⟨⟨12, 0⟩, ⟨22, 0⟩, ⟨[]⟩⟩, []⟩ :
        Pd_session_component).free_rpc_cap (⟨7, 0⟩ : Capability)).events ++
            [.lock .native_caps, .lookup .native_caps, .error, .unlock .native_caps] }) :=
  have hs : ∀ info ∈ (⟨⟨1, 0⟩, ⟨[⟨⟨8, 0⟩, true⟩], [], [⟨⟨8, 0⟩, ⟨5, 0⟩, false⟩], ""⟩,
        ⟨⟨10, 0⟩, ⟨20, 0⟩, ⟨[]⟩⟩, ⟨⟨11, 0⟩, ⟨21, 0⟩, ⟨[]⟩⟩, ⟨⟨12, 0⟩, ⟨22, 0⟩, ⟨[]⟩⟩, []⟩ :
        Pd_session_component)._parent_state.signal_sources,
      info.cap.local_name ≠ (⟨7, 0⟩ : Capability).local_name := by decide
  have hc : ∀ info ∈ (⟨⟨1, 0⟩, ⟨[⟨⟨8, 0⟩, true⟩], [], [⟨⟨8, 0⟩, ⟨5, 0⟩, false⟩], ""⟩,
        ⟨⟨10, 0⟩, ⟨20, 0⟩, ⟨[]⟩⟩, ⟨⟨11, 0⟩, ⟨21, 0⟩, ⟨[]⟩⟩, ⟨⟨12, 0⟩, ⟨22, 0⟩, ⟨[]⟩⟩, []⟩ :
        Pd_session_component)._parent_state.signal_contexts,
      info.cap.local_name ≠ (⟨7, 0⟩ : Capability).local_name := by decide
  have hn : ∀ info ∈ (⟨⟨1, 0⟩, ⟨[⟨⟨8, 0⟩, true⟩], [], [⟨⟨8, 0⟩, ⟨5, 0⟩, false⟩], ""⟩,
        ⟨⟨10, 0⟩, ⟨20, 0⟩, ⟨[]⟩⟩, ⟨⟨11, 0⟩, ⟨21, 0⟩, ⟨[]⟩⟩, ⟨⟨12, 0⟩, ⟨22, 0⟩, ⟨[]⟩⟩, []⟩ :
        Pd_session_component)._parent_state.native_caps,
      info.cap.local_name ≠ (⟨7, 0⟩ : Capability).local_name := by decide
  have hone : (⟨⟨1, 0⟩,
        ⟨[⟨⟨8, 0⟩, true⟩], [], [⟨⟨8, 0⟩, ⟨5, 0⟩, false⟩, ⟨⟨7, 0⟩, ⟨4, 0⟩, true⟩], ""⟩,
        ⟨⟨10, 0⟩, ⟨20, 0⟩, ⟨[]⟩⟩, ⟨⟨11, 0⟩, ⟨21, 0⟩, ⟨[]⟩⟩, ⟨⟨12, 0⟩, ⟨22, 0⟩, ⟨[]⟩⟩, []⟩ :
        Pd_session_component)._parent_state.native_caps.countP
      (fun info => (⟨7, 0⟩ : Capability).local_name == info.cap.local_name) = 1 := by decide
  ⟨⟨hs, (free_of_unrecorded_handle _ _).1 hs⟩,
   ⟨hc, (free_of_unrecorded_handle _ _).2.1 hc⟩,
   ⟨hn, (free_of_unrecorded_handle _ _).2.2.1 hn⟩,
   ⟨hone, ((free_of_unrecorded_handle _ _).2.2.2 hone).2⟩⟩

/-- C5, the claim as stated fails: after two `alloc_rpc_cap` calls answered with the
same handle, a `free_rpc_cap` of that handle is forwarded and leaves one entry,
and a second `free_rpc_cap` directly after it removes that entry and is forwarded
too instead of being a no-op. -/
theorem second_free_rpc_cap_not_noop :
    ((Monitored_pd.mk false (Pd_session_component.init ⟨1, 0⟩ ⟨⟨10, 0⟩, ⟨20, 0⟩, ⟨[]⟩⟩ ⟨⟨11, 0⟩, ⟨21, 0⟩, ⟨[]⟩⟩ ⟨⟨12, 0⟩, ⟨22, 0⟩, ⟨[]⟩⟩)).run
      [.alloc_rpc_cap ⟨5, 0⟩ (.returned ⟨7, 0⟩), .alloc_rpc_cap ⟨5, 0⟩ (.returned ⟨7, 0⟩),
       .free_rpc_cap ⟨7, 0⟩]).pd._parent_state.native_caps = [⟨⟨7, 0⟩, ⟨5, 0⟩, false⟩] ∧
    ((Monitored_pd.mk false (Pd_session_component.init ⟨1, 0⟩ ⟨⟨10, 0⟩, ⟨20, 0⟩, ⟨[]⟩⟩ ⟨⟨11, 0⟩, ⟨21, 0⟩, ⟨[]⟩⟩ ⟨⟨12, 0⟩, ⟨22, 0⟩, ⟨[]⟩⟩)).run
      [.alloc_rpc_cap ⟨5, 0⟩ (.returned ⟨7, 0⟩), .alloc_rpc_cap ⟨5, 0⟩ (.returned ⟨7, 0⟩),
       .free_rpc_cap ⟨7, 0⟩]).pd.events.count (.forward (.free_rpc_cap ⟨7, 0⟩)) = 1 ∧
    ((Monitored_pd.mk false (Pd_session_component.init ⟨1, 0⟩ ⟨⟨10, 0⟩, ⟨20, 0⟩, ⟨[]⟩⟩ ⟨⟨11, 0⟩, ⟨21, 0⟩, ⟨[]⟩⟩ ⟨⟨12, 0⟩, ⟨22, 0⟩, ⟨[]⟩⟩)).run
      [.alloc_rpc_cap ⟨5, 0⟩ (.returned ⟨7, 0⟩), .alloc_rpc_cap ⟨5, 0⟩ (.returned ⟨7, 0⟩),
       .free_rpc_cap ⟨7, 0⟩, .free_rpc_cap ⟨7, 0⟩]).pd._parent_state.native_caps = [] ∧
    ((Monitored_pd.mk false (Pd_session_component.init ⟨1, 0⟩ ⟨⟨10, 0⟩, ⟨20, 0⟩, ⟨[]⟩⟩ ⟨⟨11, 0⟩, ⟨21, 0⟩, ⟨[]⟩⟩ ⟨⟨12, 0⟩, ⟨22, 0⟩, ⟨[]⟩⟩)).run
      [.alloc_rpc_cap ⟨5, 0⟩ (.returned ⟨7, 0⟩), .alloc_rpc_cap ⟨5, 0⟩ (.returned ⟨7, 0⟩),
       .free_rpc_cap ⟨7, 0⟩, .free_rpc_cap ⟨7, 0⟩]).pd.events.count
        (.forward (.free_rpc_cap ⟨7, 0⟩)) = 2 := by
  decide

/-- C6: `alloc_rpc_cap(ep)` answered with `c`, directly followed by
`free_rpc_cap(c)`, leaves the native-capability ledger, and the two other ledgers,
exactly as they were before the alloc; on a fresh component the ledger is empty
again. -/
theorem alloc_then_free_rpc_cap_restores (self : Pd_session_component) (flag : Bool)
    (ep c cap : Capability) (address_space stack_area linker_area : Region_map_component) :
    ((self.alloc_rpc_cap flag ep (.returned c)).2.free_rpc_cap c)._parent_state =
      self._parent_state ∧
    (((Pd_session_component.init cap address_space stack_area linker_area).alloc_rpc_cap
        flag ep (.returned c)).2.free_rpc_cap c)._parent_state.native_caps = [] := by
  have key : ∀ s : Pd_session_component,
      ((s.alloc_rpc_cap flag ep (.returned c)).2.free_rpc_cap c)._parent_state =
        s._parent_state := by
    intro s
    rw [Pd_session_component.free_rpc_cap_parent_state,
      Pd_session_component.alloc_rpc_cap_returned]
    simp
  exact ⟨key self, by rw [key]; rfl⟩

/-- C8: when the real service rejects `alloc_signal_source`, `alloc_context` or
`alloc_rpc_cap`, the call of the component fails with the same exception and the
component differs from before only by the call it made on the service: no ledger
has a new entry. -/
theorem alloc_failure_is_passed_on (self : Pd_session_component) (flag : Bool)
    (source ep : Capability) (imprint : Nat) (e : Exception) :
    self.alloc_signal_source flag (.thrown e) =
      (.thrown e, { self with events := self.events ++ [.forward .alloc_signal_source] }) ∧
    self.alloc_context flag source imprint (.thrown e) =
      (.thrown e,
       { self with events := self.events ++ [.forward (.alloc_context source imprint)] }) ∧
    self.alloc_rpc_cap flag ep (.thrown e) =
      (.thrown e, { self with events := self.events ++ [.forward (.alloc_rpc_cap ep)] }) :=
  ⟨Pd_session_component.alloc_signal_source_thrown self flag e,
   Pd_session_component.alloc_context_thrown self flag source imprint e,
   Pd_session_component.alloc_rpc_cap_thrown self flag ep e⟩

/-- C9: `address_space()`, `stack_area()` and `linker_area()` return the capability
of the component's own region map component for the main space, the stack area
and the linker area, and leave the component as it is; where that capability
differs from the capability of the wrapped region map of the parent, the result
is not the latter. -/
theorem region_map_accessors_return_own_cap (self : Pd_session_component) :
    (self.address_space = (self._address_space.cap, self) ∧
      self.stack_area = (self._stack_area.cap, self) ∧
      self.linker_area = (self._linker_area.cap, self)) ∧
    (self._address_space.cap ≠ self._address_space.parent_cap →
      self.address_space.1 ≠ self._address_space.parent_cap) ∧
    (self._stack_area.cap ≠ self._stack_area.parent_cap →
      self.stack_area.1 ≠ self._stack_area.parent_cap) ∧
    (self._linker_area.cap ≠ self._linker_area.parent_cap →
      self.linker_area.1 ≠ self._linker_area.parent_cap) :=
  ⟨⟨rfl, rfl, rfl⟩, fun h => h, fun h => h, fun h => h⟩

/-- Instance of `region_map_accessors_return_own_cap`: a fresh component whose
region map components have the capabilities 10, 11, 12 and wrap 20, 21, 22. -/
theorem region_map_accessors_return_own_cap_witness :
    ((Pd_session_component.init ⟨1, 0⟩ ⟨⟨10, 0⟩, ⟨20, 0⟩, ⟨[]⟩⟩ ⟨⟨11, 0⟩, ⟨21, 0⟩, ⟨[]⟩⟩ ⟨⟨12, 0⟩, ⟨22, 0⟩, ⟨[]⟩⟩)._address_space.cap ≠
        (Pd_session_component.init ⟨1, 0⟩ ⟨⟨10, 0⟩, ⟨20, 0⟩, ⟨[]⟩⟩ ⟨⟨11, 0⟩, ⟨21, 0⟩, ⟨[]⟩⟩ ⟨⟨12, 0⟩, ⟨22, 0⟩, ⟨[]⟩⟩)._address_space.parent_cap ∧
      (Pd_session_component.init ⟨1, 0⟩ ⟨⟨10, 0⟩, ⟨20, 0⟩, ⟨[]⟩⟩ ⟨⟨11, 0⟩, ⟨21, 0⟩, ⟨[]⟩⟩ ⟨⟨12, 0⟩, ⟨22, 0⟩, ⟨[]⟩⟩).address_space.1 ≠
        (Pd_session_component.init ⟨1, 0⟩ ⟨⟨10, 0⟩, ⟨20, 0⟩, ⟨[]⟩⟩ ⟨⟨11, 0⟩, ⟨21, 0⟩, ⟨[]⟩⟩ ⟨⟨12, 0⟩, ⟨22, 0⟩, ⟨[]⟩⟩)._address_space.parent_cap) ∧
    ((Pd_session_component.init ⟨1, 0⟩ ⟨⟨10, 0⟩, ⟨20, 0⟩, ⟨[]⟩⟩ ⟨⟨11, 0⟩, ⟨21, 0⟩, ⟨[]⟩⟩ ⟨⟨12, 0⟩, ⟨22, 0⟩, ⟨[]⟩⟩)._stack_area.cap ≠
        (Pd_session_component.init ⟨1, 0⟩ ⟨⟨10, 0⟩, ⟨20, 0⟩, ⟨[]⟩⟩ ⟨⟨11, 0⟩, ⟨21, 0⟩, ⟨[]⟩⟩ ⟨⟨12, 0⟩, ⟨22, 0⟩, ⟨[]⟩⟩)._stack_area.parent_cap ∧
      (Pd_session_component.init ⟨1, 0⟩ ⟨⟨10, 0⟩, ⟨20, 0⟩, ⟨[]⟩⟩ ⟨⟨11, 0⟩, ⟨21, 0⟩, ⟨[]⟩⟩ ⟨⟨12, 0⟩, ⟨22, 0⟩, ⟨[]⟩⟩).stack_area.1 ≠
        (Pd_session_component.init ⟨1, 0⟩ ⟨⟨10, 0⟩, ⟨20, 0⟩, ⟨[]⟩⟩ ⟨⟨11, 0⟩, ⟨21, 0⟩, ⟨[]⟩⟩ ⟨⟨12, 0⟩, ⟨22, 0⟩, ⟨[]⟩⟩)._stack_area.parent_cap) ∧
    ((Pd_session_component.init ⟨1, 0⟩ ⟨⟨10, 0⟩, ⟨20, 0⟩, ⟨[]⟩⟩ ⟨⟨11, 0⟩, ⟨21, 0⟩, ⟨[]⟩⟩ ⟨⟨12, 0⟩, ⟨22, 0⟩, ⟨[]⟩⟩)._linker_area.cap ≠
        (Pd_session_component.init ⟨1, 0⟩ ⟨⟨10, 0⟩, ⟨20, 0⟩, ⟨[]⟩⟩ ⟨⟨11, 0⟩, ⟨21, 0⟩, ⟨[]⟩⟩ ⟨⟨12, 0⟩, ⟨22, 0⟩, ⟨[]⟩⟩)._linker_area.parent_cap ∧
      (Pd_session_component.init ⟨1, 0⟩ ⟨⟨10, 0⟩, ⟨20, 0⟩, ⟨[]⟩⟩ ⟨⟨11, 0⟩, ⟨21, 0⟩, ⟨[]⟩⟩ ⟨⟨12, 0⟩, ⟨22, 0⟩, ⟨[]⟩⟩).linker_area.1 ≠
        (Pd_session_component.init ⟨1, 0⟩ ⟨⟨10, 0⟩, ⟨20, 0⟩, ⟨[]⟩⟩ ⟨⟨11, 0⟩, ⟨21, 0⟩, ⟨[]⟩⟩ ⟨⟨12, 0⟩, ⟨22, 0⟩, ⟨[]⟩⟩)._linker_area.parent_cap) :=
  ⟨⟨by decide, (region_map_accessors_return_own_cap _).2.1 (by decide)⟩,
   ⟨by decide, (region_map_accessors_return_own_cap _).2.2.1 (by decide)⟩,
   ⟨by decide, (region_map_accessors_return_own_cap _).2.2.2 (by decide)⟩⟩

/-- C10 (as amended): `ref_account`, `cap_quota`, `used_caps`, `ram_quota`, `used_ram`,
`alloc`, `free`, `dataspace_size` and `native_pd` return what the real Pd service
answers to the call with the same arguments, and change nothing of the component
but the history of calls made on the service, so every ledger is as before.  Both
`transfer_quota` methods leave the ledgers as they are too, and first query
`cap_quota()`, respectively `ram_quota()`, of the real service: when the query
returns they forward the transfer and return its answer, when the query fails
they pass that failure on and do not forward the transfer.  The methods of the
Ram session component forward like the first nine. -/
theorem forwarding_only (self : Pd_session_component) (ram : Ram_session_component)
    (cap : Capability) (quota size logged : Nat) (attr : Cache_attribute) (e : Exception)
    (unit_answer : Outcome Unit) (nat_answer : Outcome Nat) (int_answer : Outcome Int)
    (cap_answer : Outcome Capability) :
    (self.ref_account cap unit_answer =
        (unit_answer, { self with events := self.events ++ [.forward (.ref_account cap)] }) ∧
      self.cap_quota nat_answer =
        (nat_answer, { self with events := self.events ++ [.forward .cap_quota] }) ∧
      self.used_caps nat_answer =
        (nat_answer, { self with events := self.events ++ [.forward .used_caps] }) ∧
      self.ram_quota nat_answer =
        (nat_answer, { self with events := self.events ++ [.forward .ram_quota] }) ∧
      self.used_ram nat_answer =
        (nat_answer, { self with events := self.events ++ [.forward .used_ram] }) ∧
      self.alloc size attr cap_answer =
        (cap_answer, { self with events := self.events ++ [.forward (.alloc size attr)] }) ∧
      self.free cap unit_answer =
        (unit_answer, { self with events := self.events ++ [.forward (.free cap)] }) ∧
      self.dataspace_size cap nat_answer =
        (nat_answer, { self with events := self.events ++ [.forward (.dataspace_size cap)] }) ∧
      self.native_pd cap_answer =
        (cap_answer, { self with events := self.events ++ [.forward .native_pd] })) ∧
    (self.transfer_quota_cap cap quota (.returned logged) unit_answer =
        (unit_answer, { self with events := self.events ++
          [.forward .cap_quota, .forward (.transfer_cap_quota cap quota)] }) ∧
      self.transfer_quota_cap cap quota (.thrown e) unit_answer =
        (.thrown e, { self with events := self.events ++ [.forward .cap_quota] }) ∧
      self.transfer_quota_ram cap quota (.returned logged) unit_answer =
        (unit_answer, { self with events := self.events ++
          [.forward .ram_quota, .forward (.transfer_ram_quota cap quota)] }) ∧
      self.transfer_quota_ram cap quota (.thrown e) unit_answer =
        (.thrown e, { self with events := self.events ++ [.forward .ram_quota] })) ∧
    (ram.alloc size attr cap_answer = (cap_answer, ⟨ram.calls ++ [.alloc size attr]⟩) ∧
      ram.free cap unit_answer = (unit_answer, ⟨ram.calls ++ [.free cap]⟩) ∧
      ram.ref_account cap int_answer = (int_answer, ⟨ram.calls ++ [.ref_account cap]⟩) ∧
      ram.transfer_quota cap quota int_answer =
        (int_answer, ⟨ram.calls ++ [.transfer_quota cap quota]⟩) ∧
      ram.quota nat_answer = (nat_answer, ⟨ram.calls ++ [.quota]⟩) ∧
      ram.used nat_answer = (nat_answer, ⟨ram.calls ++ [.used]⟩)) := by
  refine ⟨⟨rfl, rfl, rfl, rfl, rfl, rfl, rfl, rfl, rfl⟩, ⟨?_, rfl, ?_, rfl⟩,
    ⟨rfl, rfl, rfl, rfl, rfl, rfl⟩⟩
  · simp [Pd_session_component.transfer_quota_cap, Pd_session_component.forward_only,
      Pd_session_component.emit]
  · simp [Pd_session_component.transfer_quota_ram, Pd_session_component.forward_only,
      Pd_session_component.emit]

/-- C10, the claim as stated fails: when the `cap_quota()` query that
`transfer_quota` makes for its log line fails, the method fails with that
exception although the real service would answer the transfer, and the transfer
is not among the calls made on the service; likewise with `ram_quota()`. -/
theorem transfer_quota_stops_at_failed_query :
    ((Pd_session_component.init ⟨1, 0⟩ ⟨⟨10, 0⟩, ⟨20, 0⟩, ⟨[]⟩⟩ ⟨⟨11, 0⟩, ⟨21, 0⟩, ⟨[]⟩⟩
        ⟨⟨12, 0⟩, ⟨22, 0⟩, ⟨[]⟩⟩).transfer_quota_cap ⟨2, 0⟩ 50 (.thrown ⟨1⟩) (.returned ())).1 =
      .thrown ⟨1⟩ ∧
    ((Pd_session_component.init ⟨1, 0⟩ ⟨⟨10, 0⟩, ⟨20, 0⟩, ⟨[]⟩⟩ ⟨⟨11, 0⟩, ⟨21, 0⟩, ⟨[]⟩⟩
        ⟨⟨12, 0⟩, ⟨22, 0⟩, ⟨[]⟩⟩).transfer_quota_cap ⟨2, 0⟩ 50 (.thrown ⟨1⟩)
          (.returned ())).2.events = [.forward .cap_quota] ∧
    ((Pd_session_component.init ⟨1, 0⟩ ⟨⟨10, 0⟩, ⟨20, 0⟩, ⟨[]⟩⟩ ⟨⟨11, 0⟩, ⟨21, 0⟩, ⟨[]⟩⟩
        ⟨⟨12, 0⟩, ⟨22, 0⟩, ⟨[]⟩⟩).transfer_quota_ram ⟨2, 0⟩ 4096 (.thrown ⟨1⟩) (.returned ())).1 =
      .thrown ⟨1⟩ ∧
    ((Pd_session_component.init ⟨1, 0⟩ ⟨⟨10, 0⟩, ⟨20, 0⟩, ⟨[]⟩⟩ ⟨⟨11, 0⟩, ⟨21, 0⟩, ⟨[]⟩⟩
        ⟨⟨12, 0⟩, ⟨22, 0⟩, ⟨[]⟩⟩).transfer_quota_ram ⟨2, 0⟩ 4096 (.thrown ⟨1⟩)
          (.returned ())).2.events = [.forward .ram_quota] := by
  decide

/-! ## Whole call sequences -/

theorem run_unfreed (m : Monitored_pd) (calls : List Call) :
    (m.run calls).pd._parent_state.signal_sources.map (fun info => info.cap) =
      spec_unfreed_alloc_results (m.pd._parent_state.signal_sources.map fun info => info.cap)
        calls := by
  induction calls generalizing m with
  | nil => rfl
  | cons c calls ih =>
    rw [run_cons, ih, step_signal_sources]
    cases c with
    | alloc_signal_source a => cases a <;> simp [spec_unfreed_alloc_results]
    | free_signal_source cap =>
      simp [spec_unfreed_alloc_results, List.eraseP_map, Function.comp_def]
    | _ => simp [spec_unfreed_alloc_results]

theorem run_count (m : Monitored_pd) (calls : List Call) :
    (m.run calls).pd._parent_state.signal_sources.length +
        spec_matching_frees (m.pd._parent_state.signal_sources.map fun info => info.cap) calls =
      m.pd._parent_state.signal_sources.length + spec_alloc_count calls := by
  induction calls generalizing m with
  | nil => simp [Monitored_pd.run, spec_matching_frees, spec_alloc_count]
  | cons c calls ih =>
    have := ih (m.step c)
    rw [step_signal_sources] at this
    rw [run_cons]
    cases c with
    | alloc_signal_source a =>
      cases a <;> simp [spec_matching_frees, spec_alloc_count] at this ⊢ <;> omega
    | free_signal_source cap =>
      have hany : ((m.pd._parent_state.signal_sources.map fun info => info.cap).any fun h =>
          cap.local_name == h.local_name) =
          m.pd._parent_state.signal_sources.any fun info => cap.local_name == info.cap.local_name := by
        induction m.pd._parent_state.signal_sources with
        | nil => rfl
        | cons a l ihl => simp only [List.map_cons, List.any_cons, ihl]
      have hcount : spec_alloc_count (Call.free_signal_source cap :: calls) =
          spec_alloc_count calls := by
        simp [spec_alloc_count]
      simp only [spec_matching_frees, List.eraseP_map, Function.comp_def, hany, hcount,
        List.length_eraseP] at this ⊢
      by_cases hb : (m.pd._parent_state.signal_sources.any
          fun info => cap.local_name == info.cap.local_name) = true
      · have hpos : 0 < m.pd._parent_state.signal_sources.length := by
          cases hl : m.pd._parent_state.signal_sources with
          | nil => simp [hl] at hb
          | cons a l => simp
        rw [if_pos hb] at this ⊢
        omega
      · rw [if_neg hb] at this ⊢
        omega
    | _ =>
      simp [spec_matching_frees, spec_alloc_count] at this ⊢
      omega

/-- C1: for every finite sequence of calls, started with an empty signal-source
ledger, the final size of that ledger is the number of `alloc_signal_source` calls
that returned a handle minus the number of `free_signal_source` calls that matched
a recorded entry, and the handles of the surviving entries are, one for one and
newest first, the alloc results that no free has matched. -/
theorem ledger_size_and_survivors (m : Monitored_pd) (calls : List Call)
    (hempty : m.pd._parent_state.signal_sources = []) :
    spec_matching_frees [] calls ≤ spec_alloc_count calls ∧
    (m.run calls).pd._parent_state.signal_sources.length =
      spec_alloc_count calls - spec_matching_frees [] calls ∧
    (m.run calls).pd._parent_state.signal_sources.map (fun info => info.cap) =
      spec_unfreed_alloc_results [] calls := by
  have hc := run_count m calls
  have hu := run_unfreed m calls
  rw [hempty] at hc hu
  simp only [List.map_nil, List.length_nil, Nat.zero_add] at hc hu
  exact ⟨by omega, by omega, hu⟩

/-- Instance of `ledger_size_and_survivors`: two allocs answered with badges 7 and
8, a free of badge 7 and a free of the unknown badge 9, on a fresh component. -/
theorem ledger_size_and_survivors_witness :
    (Monitored_pd.mk false (Pd_session_component.init ⟨1, 0⟩ ⟨⟨10, 0⟩, ⟨20, 0⟩, ⟨[]⟩⟩
        ⟨⟨11, 0⟩, ⟨21, 0⟩, ⟨[]⟩⟩ ⟨⟨12, 0⟩, ⟨22, 0⟩, ⟨[]⟩⟩)).pd._parent_state.signal_sources = [] ∧
    (spec_matching_frees []
      [.alloc_signal_source (.returned ⟨7, 0⟩), .alloc_signal_source (.returned ⟨8, 0⟩),
        .free_signal_source ⟨7, 0⟩, .free_signal_source ⟨9, 0⟩] ≤
      spec_alloc_count
      [.alloc_signal_source (.returned ⟨7, 0⟩), .alloc_signal_source (.returned ⟨8, 0⟩),
        .free_signal_source ⟨7, 0⟩, .free_signal_source ⟨9, 0⟩] ∧
    ((Monitored_pd.mk false (Pd_session_component.init ⟨1, 0⟩ ⟨⟨10, 0⟩, ⟨20, 0⟩, ⟨[]⟩⟩
        ⟨⟨11, 0⟩, ⟨21, 0⟩, ⟨[]⟩⟩ ⟨⟨12, 0⟩, ⟨22, 0⟩, ⟨[]⟩⟩)).run
      [.alloc_signal_source (.returned ⟨7, 0⟩), .alloc_signal_source (.returned ⟨8, 0⟩),
        .free_signal_source ⟨7, 0⟩, .free_signal_source ⟨9, 0⟩]).pd._parent_state.signal_sources.length =
      spec_alloc_count
      [.alloc_signal_source (.returned ⟨7, 0⟩), .alloc_signal_source (.returned ⟨8, 0⟩),
        .free_signal_source ⟨7, 0⟩, .free_signal_source ⟨9, 0⟩] -
      spec_matching_frees []
      [.alloc_signal_source (.returned ⟨7, 0⟩), .alloc_signal_source (.returned ⟨8, 0⟩),
        .free_signal_source ⟨7, 0⟩, .free_signal_source ⟨9, 0⟩] ∧
    ((Monitored_pd.mk false (Pd_session_component.init ⟨1, 0⟩ ⟨⟨10, 0⟩, ⟨20, 0⟩, ⟨[]⟩⟩
        ⟨⟨11, 0⟩, ⟨21, 0⟩, ⟨[]⟩⟩ ⟨⟨12, 0⟩, ⟨22, 0⟩, ⟨[]⟩⟩)).run
      [.alloc_signal_source (.returned ⟨7, 0⟩), .alloc_signal_source (.returned ⟨8, 0⟩),
        .free_signal_source ⟨7, 0⟩, .free_signal_source ⟨9, 0⟩]).pd._parent_state.signal_sources.map
        (fun info => info.cap) =
      spec_unfreed_alloc_results []
      [.alloc_signal_source (.returned ⟨7, 0⟩), .alloc_signal_source (.returned ⟨8, 0⟩),
        .free_signal_source ⟨7, 0⟩, .free_signal_source ⟨9, 0⟩]) :=
  ⟨rfl, ledger_size_and_survivors _ _ rfl⟩

theorem nodup_badges_eraseP {α : Type} (key : α → Int) (hit : α → Bool) (l : List α)
    (h : (l.map key).Nodup) : ((l.eraseP hit).map key).Nodup :=
  h.sublist ((List.eraseP_sublist l).map key)

theorem run_nodup (m : Monitored_pd) (calls : List Call)
    (hs : m.pd.signal_source_badges.Nodup) (hc : m.pd.signal_context_badges.Nodup)
    (hn : m.pd.native_cap_badges.Nodup) (hfresh : fresh_answers m calls = true) :
    (m.run calls).pd.signal_source_badges.Nodup ∧
    (m.run calls).pd.signal_context_badges.Nodup ∧
    (m.run calls).pd.native_cap_badges.Nodup := by
  induction calls generalizing m with
  | nil => exact ⟨hs, hc, hn⟩
  | cons c calls ih =>
    rw [run_cons]
    simp only [fresh_answers, Bool.and_eq_true] at hfresh
    obtain ⟨hnow, hlater⟩ := hfresh
    simp only [Pd_session_component.signal_source_badges,
      Pd_session_component.signal_context_badges, Pd_session_component.native_cap_badges]
      at hs hc hn hnow
    refine ih (m.step c) ?_ ?_ ?_ hlater
    · simp only [Pd_session_component.signal_source_badges, step_signal_sources]
      cases c with
      | alloc_signal_source a =>
        cases a with
        | returned h =>
          have : h.local_name ∉ m.pd._parent_state.signal_sources.map
              fun info => info.cap.local_name := by simpa using hnow
          simpa using ⟨by simpa using this, hs⟩
        | thrown e => simpa using hs
      | free_signal_source cap => exact nodup_badges_eraseP _ _ _ hs
      | _ => simpa using hs
    · simp only [Pd_session_component.signal_context_badges, step_signal_contexts]
      cases c with
      | alloc_context source imprint a =>
        cases a with
        | returned h =>
          have : h.local_name ∉ m.pd._parent_state.signal_contexts.map
              fun info => info.cap.local_name := by simpa using hnow
          simpa using ⟨by simpa using this, hc⟩
        | thrown e => simpa using hc
      | free_context cap => exact nodup_badges_eraseP _ _ _ hc
      | _ => simpa using hc
    · simp only [Pd_session_component.native_cap_badges, step_native_caps]
      cases c with
      | alloc_rpc_cap ep a =>
        cases a with
        | returned h =>
          have : h.local_name ∉ m.pd._parent_state.native_caps.map
              fun info => info.cap.local_name := by simpa using hnow
          simpa using ⟨by simpa using this, hn⟩
        | thrown e => simpa using hn
      | free_rpc_cap cap => exact nodup_badges_eraseP _ _ _ hn
      | _ => simpa using hn

/-- C2 (as amended): in every state reached from empty ledgers by a sequence of
`alloc_rpc_cap` / `free_rpc_cap`, `alloc_signal_source` / `free_signal_source` and
`alloc_context` / `free_context` calls, each ledger holds at most one entry per
badge, provided the real service never answers an alloc with a handle whose badge
an entry of that ledger holds at that moment. -/
theorem one_entry_per_badge (m : Monitored_pd) (calls : List Call)
    (hs : m.pd._parent_state.signal_sources = [])
    (hc : m.pd._parent_state.signal_contexts = [])
    (hn : m.pd._parent_state.native_caps = [])
    (hfresh : fresh_answers m calls = true) :
    (m.run calls).pd.native_cap_badges.Nodup ∧
    (m.run calls).pd.signal_source_badges.Nodup ∧
    (m.run calls).pd.signal_context_badges.Nodup := by
  have h := run_nodup m calls
    (by simp [Pd_session_component.signal_source_badges, hs])
    (by simp [Pd_session_component.signal_context_badges, hc])
    (by simp [Pd_session_component.native_cap_badges, hn]) hfresh
  exact ⟨h.2.2, h.1, h.2.1⟩

/-- C2, the claim as stated fails: the component inserts whatever the real service
answers, so two `alloc_rpc_cap` calls answered with the same handle leave two
entries with badge 7 in the native-capability ledger. -/
theorem one_entry_per_badge_needs_fresh_answers :
    ¬ ((Monitored_pd.mk false (Pd_session_component.init ⟨1, 0⟩ ⟨⟨10, 0⟩, ⟨20, 0⟩, ⟨[]⟩⟩
        ⟨⟨11, 0⟩, ⟨21, 0⟩, ⟨[]⟩⟩ ⟨⟨12, 0⟩, ⟨22, 0⟩, ⟨[]⟩⟩)).run
      [.alloc_rpc_cap ⟨5, 0⟩ (.returned ⟨7, 0⟩),
       .alloc_rpc_cap ⟨5, 0⟩ (.returned ⟨7, 0⟩)]).pd.native_cap_badges.Nodup := by
  decide

/-- Instance of `one_entry_per_badge`: on a fresh component, a handle is allocated,
freed and handed out again, and the badge 7 is used in two different ledgers. -/
theorem one_entry_per_badge_witness :
    ((Monitored_pd.mk false (Pd_session_component.init ⟨1, 0⟩ ⟨⟨10, 0⟩, ⟨20, 0⟩, ⟨[]⟩⟩ ⟨⟨11, 0⟩, ⟨21, 0⟩, ⟨[]⟩⟩ ⟨⟨12, 0⟩, ⟨22, 0⟩, ⟨[]⟩⟩)).pd._parent_state.signal_sources = [] ∧
      (Monitored_pd.mk false (Pd_session_component.init ⟨1, 0⟩ ⟨⟨10, 0⟩, ⟨20, 0⟩, ⟨[]⟩⟩ ⟨⟨11, 0⟩, ⟨21, 0⟩, ⟨[]⟩⟩ ⟨⟨12, 0⟩, ⟨22, 0⟩, ⟨[]⟩⟩)).pd._parent_state.signal_contexts = [] ∧
      (Monitored_pd.mk false (Pd_session_component.init ⟨1, 0⟩ ⟨⟨10, 0⟩, ⟨20, 0⟩, ⟨[]⟩⟩ ⟨⟨11, 0⟩, ⟨21, 0⟩, ⟨[]⟩⟩ ⟨⟨12, 0⟩, ⟨22, 0⟩, ⟨[]⟩⟩)).pd._parent_state.native_caps = [] ∧
      fresh_answers (Monitored_pd.mk false (Pd_session_component.init ⟨1, 0⟩ ⟨⟨10, 0⟩, ⟨20, 0⟩, ⟨[]⟩⟩ ⟨⟨11, 0⟩, ⟨21, 0⟩, ⟨[]⟩⟩ ⟨⟨12, 0⟩, ⟨22, 0⟩, ⟨[]⟩⟩))
      [.alloc_rpc_cap ⟨5, 0⟩ (.returned ⟨7, 0⟩), .free_rpc_cap ⟨7, 0⟩,
       .alloc_rpc_cap ⟨5, 0⟩ (.returned ⟨7, 0⟩), .alloc_rpc_cap ⟨5, 0⟩ (.returned ⟨8, 0⟩),
       .alloc_signal_source (.returned ⟨7, 0⟩), .alloc_context ⟨7, 0⟩ 3 (.returned ⟨9, 0⟩),
       .free_context ⟨4, 0⟩] = true) ∧
    (((Monitored_pd.mk false (Pd_session_component.init ⟨1, 0⟩ ⟨⟨10, 0⟩, ⟨20, 0⟩, ⟨[]⟩⟩ ⟨⟨11, 0⟩, ⟨21, 0⟩, ⟨[]⟩⟩ ⟨⟨12, 0⟩, ⟨22, 0⟩, ⟨[]⟩⟩)).run
      [.alloc_rpc_cap ⟨5, 0⟩ (.returned ⟨7, 0⟩), .free_rpc_cap ⟨7, 0⟩,
       .alloc_rpc_cap ⟨5, 0⟩ (.returned ⟨7, 0⟩), .alloc_rpc_cap ⟨5, 0⟩ (.returned ⟨8, 0⟩),
       .alloc_signal_source (.returned ⟨7, 0⟩), .alloc_context ⟨7, 0⟩ 3 (.returned ⟨9, 0⟩),
       .free_context ⟨4, 0⟩]).pd.native_cap_badges.Nodup ∧
    ((Monitored_pd.mk false (Pd_session_component.init ⟨1, 0⟩ ⟨⟨10, 0⟩, ⟨20, 0⟩, ⟨[]⟩⟩ ⟨⟨11, 0⟩, ⟨21, 0⟩, ⟨[]⟩⟩ ⟨⟨12, 0⟩, ⟨22, 0⟩, ⟨[]⟩⟩)).run
      [.alloc_rpc_cap ⟨5, 0⟩ (.returned ⟨7, 0⟩), .free_rpc_cap ⟨7, 0⟩,
       .alloc_rpc_cap ⟨5, 0⟩ (.returned ⟨7, 0⟩), .alloc_rpc_cap ⟨5, 0⟩ (.returned ⟨8, 0⟩),
       .alloc_signal_source (.returned ⟨7, 0⟩), .alloc_context ⟨7, 0⟩ 3 (.returned ⟨9, 0⟩),
       .free_context ⟨4, 0⟩]).pd.signal_source_badges.Nodup ∧
    ((Monitored_pd.mk false (Pd_session_component.init ⟨1, 0⟩ ⟨⟨10, 0⟩, ⟨20, 0⟩, ⟨[]⟩⟩ ⟨⟨11, 0⟩, ⟨21, 0⟩, ⟨[]⟩⟩ ⟨⟨12, 0⟩, ⟨22, 0⟩, ⟨[]⟩⟩)).run
      [.alloc_rpc_cap ⟨5, 0⟩ (.returned ⟨7, 0⟩), .free_rpc_cap ⟨7, 0⟩,
       .alloc_rpc_cap ⟨5, 0⟩ (.returned ⟨7, 0⟩), .alloc_rpc_cap ⟨5, 0⟩ (.returned ⟨8, 0⟩),
       .alloc_signal_source (.returned ⟨7, 0⟩), .alloc_context ⟨7, 0⟩ 3 (.returned ⟨9, 0⟩),
       .free_context ⟨4, 0⟩]).pd.signal_context_badges.Nodup) :=
  ⟨⟨rfl, rfl, rfl, by decide⟩, one_entry_per_badge _ _ rfl rfl rfl (by decide)⟩

theorem run_signal_sources_sublist (m : Monitored_pd) (calls : List Call) :
    List.Sublist (m.run calls).pd._parent_state.signal_sources
      (spec_signal_source_allocs m.bootstrap_phase calls ++ m.pd._parent_state.signal_sources) := by
  induction calls generalizing m with
  | nil => simp [Monitored_pd.run, spec_signal_source_allocs]
  | cons c calls ih =>
    rw [run_cons]
    refine (ih (m.step c)).trans ?_
    rw [step_signal_sources, step_bootstrap_phase]
    cases c with
    | set_bootstrap_phase v => simp [spec_signal_source_allocs]
    | alloc_signal_source a => cases a <;> simp [spec_signal_source_allocs]
    | free_signal_source cap =>
      simpa [spec_signal_source_allocs] using List.eraseP_sublist _
    | _ => simp [spec_signal_source_allocs]

theorem run_signal_contexts_sublist (m : Monitored_pd) (calls : List Call) :
    List.Sublist (m.run calls).pd._parent_state.signal_contexts
      (spec_signal_context_allocs m.bootstrap_phase calls ++
        m.pd._parent_state.signal_contexts) := by
  induction calls generalizing m with
  | nil => simp [Monitored_pd.run, spec_signal_context_allocs]
  | cons c calls ih =>
    rw [run_cons]
    refine (ih (m.step c)).trans ?_
    rw [step_signal_contexts, step_bootstrap_phase]
    cases c with
    | set_bootstrap_phase v => simp [spec_signal_context_allocs]
    | alloc_context source imprint a => cases a <;> simp [spec_signal_context_allocs]
    | free_context cap =>
      simpa [spec_signal_context_allocs] using List.eraseP_sublist _
    | _ => simp [spec_signal_context_allocs]

theorem run_native_caps_sublist (m : Monitored_pd) (calls : List Call) :
    List.Sublist (m.run calls).pd._parent_state.native_caps
      (spec_native_cap_allocs m.bootstrap_phase calls ++ m.pd._parent_state.native_caps) := by
  induction calls generalizing m with
  | nil => simp [Monitored_pd.run, spec_native_cap_allocs]
  | cons c calls ih =>
    rw [run_cons]
    refine (ih (m.step c)).trans ?_
    rw [step_native_caps, step_bootstrap_phase]
    cases c with
    | set_bootstrap_phase v => simp [spec_native_cap_allocs]
    | alloc_rpc_cap ep a => cases a <;> simp [spec_native_cap_allocs]
    | free_rpc_cap cap =>
      simpa [spec_native_cap_allocs] using List.eraseP_sublist _
    | _ => simp [spec_native_cap_allocs]

/-- C7: an alloc made while the shared flag has value `b` creates an entry tagged
`b`; writing the flag leaves the component as it is; and after any further
sequence of flag writes and ledger calls every entry of a ledger is, in order and
one for one, either an entry that was there before, unchanged, or the record of a
later alloc tagged with the value the flag had at that alloc.  The stored copy of
an attachment takes over the tag of the attachment. -/
theorem bootstrap_tag_is_flag_at_alloc (m : Monitored_pd) (h source ep : Capability)
    (imprint : Nat) (value : Bool) (calls : List Call)
    (info : Attached_region_info) (kcap : Nat) (copy_ds_cap : Capability) :
    ((m.step (.alloc_signal_source (.returned h))).pd._parent_state.signal_sources =
        { cap := h, bootstrapped := m.bootstrap_phase } :: m.pd._parent_state.signal_sources ∧
      (m.step (.alloc_context source imprint (.returned h))).pd._parent_state.signal_contexts =
        { cap := h, source := source, imprint := imprint, bootstrapped := m.bootstrap_phase } ::
          m.pd._parent_state.signal_contexts ∧
      (m.step (.alloc_rpc_cap ep (.returned h))).pd._parent_state.native_caps =
        { cap := h, ep := ep, bootstrapped := m.bootstrap_phase } ::
          m.pd._parent_state.native_caps) ∧
    (m.step (.set_bootstrap_phase value)).pd = m.pd ∧
    (List.Sublist (m.run calls).pd._parent_state.signal_sources
        (spec_signal_source_allocs m.bootstrap_phase calls ++ m.pd._parent_state.signal_sources) ∧
      List.Sublist (m.run calls).pd._parent_state.signal_contexts
        (spec_signal_context_allocs m.bootstrap_phase calls ++
          m.pd._parent_state.signal_contexts) ∧
      List.Sublist (m.run calls).pd._parent_state.native_caps
        (spec_native_cap_allocs m.bootstrap_phase calls ++ m.pd._parent_state.native_caps)) ∧
    (Stored_attached_region_info.create info kcap copy_ds_cap).base.bootstrapped =
      info.bootstrapped := by
  refine ⟨⟨?_, ?_, ?_⟩, rfl, ⟨run_signal_sources_sublist m calls,
    run_signal_contexts_sublist m calls, run_native_caps_sublist m calls⟩, rfl⟩
  · rw [step_signal_sources]
  · rw [step_signal_contexts]
  · rw [step_native_caps]

/-! ## The roots -/

/-- C11: `_upgrade_session(session, args)` forwards `args` as they are to the
parent and stores the upgrade arguments of the session with `ram_quota` set to
the recorded value (0 if none) plus the requested value (0 if absent) modulo
the machine word; the recorded ram_quota afterwards is that sum, the stored
arguments fitting the 160 character buffer and the written value reading back
from it. -/
theorem upgrade_session_merges_ram_quota (self : Pd_root) (lib : Genode_util) (word_bits : Nat)
    (session : Pd_session_component) (upgrade_args : String)
    (hfits : lib.strncpy session._parent_state.upgrade_args 160 =
      session._parent_state.upgrade_args)
    (hreads : (lib.find_arg
        (lib.set_arg session._parent_state.upgrade_args 160 "ram_quota"
          (lib.snprintf_zu 32
            ((spec_recorded_ram_quota lib session + spec_requested_ram_quota lib upgrade_args) %
              2 ^ word_bits)))
        "ram_quota").ulong =
      some ((spec_recorded_ram_quota lib session + spec_requested_ram_quota lib upgrade_args) %
        2 ^ word_bits)) :
    spec_recorded_ram_quota lib (self._upgrade_session lib word_bits session upgrade_args).1 =
      (spec_recorded_ram_quota lib session + spec_requested_ram_quota lib upgrade_args) %
        2 ^ word_bits ∧
    (self._upgrade_session lib word_bits session upgrade_args).1 =
      { session with
        _parent_state := { session._parent_state with
          upgrade_args :=
            lib.set_arg session._parent_state.upgrade_args 160 "ram_quota"
              (lib.snprintf_zu 32
                ((spec_recorded_ram_quota lib session +
                  spec_requested_ram_quota lib upgrade_args) % 2 ^ word_bits)) } } ∧
    (self._upgrade_session lib word_bits session upgrade_args).2 =
      { self with events := self.events ++ [.upgrade upgrade_args] } := by
  have hstate : (self._upgrade_session lib word_bits session upgrade_args).1 =
      { session with
        _parent_state := { session._parent_state with
          upgrade_args :=
            lib.set_arg session._parent_state.upgrade_args 160 "ram_quota"
              (lib.snprintf_zu 32
                ((spec_recorded_ram_quota lib session +
                  spec_requested_ram_quota lib upgrade_args) % 2 ^ word_bits)) } } := by
    simp only [Pd_root._upgrade_session, hfits, spec_recorded_ram_quota,
      spec_requested_ram_quota, Arg.ulong_value]
    cases (lib.find_arg session._parent_state.upgrade_args "ram_quota").ulong <;>
      cases (lib.find_arg upgrade_args "ram_quota").ulong <;> rfl
  refine ⟨?_, hstate, rfl⟩
  rw [hstate]
  simp only [spec_recorded_ram_quota] at hreads ⊢
  rw [hreads]

/-- Instance of `upgrade_session_merges_ram_quota`: a library instance in which an
argument string is the bare decimal value of `ram_quota`, a session with no
recorded quota and the request 4096 on a 32 bit machine. -/
theorem upgrade_session_merges_ram_quota_witness :
    spec_recorded_ram_quota
        { find_arg := fun args _ =>
            ⟨some args, if args.data = [] then none
              else some (args.data.foldl (fun n c => 10 * n + (c.toNat - 48)) 0)⟩
          set_arg := fun _ _ _ value => value
          strncpy := fun src _ => src
          snprintf_zu := fun _ value => toString value }
        ((Pd_root.mk [] [])._upgrade_session
          { find_arg := fun args _ =>
              ⟨some args, if args.data = [] then none
                else some (args.data.foldl (fun n c => 10 * n + (c.toNat - 48)) 0)⟩
            set_arg := fun _ _ _ value => value
            strncpy := fun src _ => src
            snprintf_zu := fun _ value => toString value }
          32
          (Pd_session_component.init ⟨1, 0⟩ ⟨⟨10, 0⟩, ⟨20, 0⟩, ⟨[]⟩⟩ ⟨⟨11, 0⟩, ⟨21, 0⟩, ⟨[]⟩⟩
            ⟨⟨12, 0⟩, ⟨22, 0⟩, ⟨[]⟩⟩)
          "4096").1 = 4096 :=
  (upgrade_session_merges_ram_quota (Pd_root.mk [] [])
    { find_arg := fun args _ =>
        ⟨some args, if args.data = [] then none
          else some (args.data.foldl (fun n c => 10 * n + (c.toNat - 48)) 0)⟩
      set_arg := fun _ _ _ value => value
      strncpy := fun src _ => src
      snprintf_zu := fun _ value => toString value }
    32
    (Pd_session_component.init ⟨1, 0⟩ ⟨⟨10, 0⟩, ⟨20, 0⟩, ⟨[]⟩⟩ ⟨⟨11, 0⟩, ⟨21, 0⟩, ⟨[]⟩⟩
      ⟨⟨12, 0⟩, ⟨22, 0⟩, ⟨[]⟩⟩)
    "4096" rfl (by decide)).1

/-- C12: for every argument string `_create_session` returns, without a failure from
the label extraction, the pointer to a new session object with empty ledgers, and
the registry afterwards is that pointer in front of the previous registry: every
other session is registered as often as before, and the new one exactly once, it
being new.  Where the arguments hold no well-formed label, the extracted label is
the empty string. -/
theorem create_session_registers_new_proxy (self : Pd_root) (lib : Genode_util) (args : String)
    (new_session : Nat) (cap : Capability)
    (address_space stack_area linker_area : Region_map_component) :
    (self._create_session lib args new_session cap address_space stack_area linker_area).1 =
      new_session ∧
    (self._create_session lib args new_session cap address_space stack_area linker_area).2.1 =
      Pd_session_component.init cap address_space stack_area linker_area ∧
    (self._create_session lib args new_session cap address_space
        stack_area linker_area).2.2._session_rpc_objs =
      new_session :: self._session_rpc_objs ∧
    (new_session ∉ self._session_rpc_objs →
      (self._create_session lib args new_session cap address_space
        stack_area linker_area).2.2._session_rpc_objs.count new_session = 1) ∧
    (∀ other, other ≠ new_session →
      (self._create_session lib args new_session cap address_space
        stack_area linker_area).2.2._session_rpc_objs.count other =
        self._session_rpc_objs.count other) ∧
    ((lib.find_arg args "label").string_value = none → Pd_root.label_buf lib args = "") := by
  have hreg : (self._create_session lib args new_session cap address_space
      stack_area linker_area).2.2._session_rpc_objs = new_session :: self._session_rpc_objs := rfl
  refine ⟨rfl, rfl, hreg, ?_, ?_, ?_⟩
  · intro hnew
    rw [hreg, List.count_cons_self, List.count_eq_zero_of_not_mem hnew]
  · intro other hother
    rw [hreg, List.count_cons_of_ne hother]
  · intro hnone
    simp [Pd_root.label_buf, Arg.string, hnone]

/-- Instance of `create_session_registers_new_proxy`: a registry holding the sessions
at addresses 3 and 5, a new session object at address 8, and a library instance
that finds no argument at all. -/
theorem create_session_registers_new_proxy_witness :
    (8 ∉ (Pd_root.mk [3, 5] [])._session_rpc_objs ∧
      ((Pd_root.mk [3, 5] [])._create_session
        { find_arg := fun _ _ => ⟨none, none⟩
          set_arg := fun args _ _ _ => args
          strncpy := fun src _ => src
          snprintf_zu := fun _ value => toString value }
        "ram_quota=4096" 8 ⟨1, 0⟩ ⟨⟨10, 0⟩, ⟨20, 0⟩, ⟨[]⟩⟩ ⟨⟨11, 0⟩, ⟨21, 0⟩, ⟨[]⟩⟩
        ⟨⟨12, 0⟩, ⟨22, 0⟩, ⟨[]⟩⟩).2.2._session_rpc_objs.count 8 = 1) ∧
    Pd_root.label_buf
        { find_arg := fun _ _ => ⟨none, none⟩
          set_arg := fun args _ _ _ => args
          strncpy := fun src _ => src
          snprintf_zu := fun _ value => toString value }
        "ram_quota=4096" = "" :=
  ⟨⟨by decide, (create_session_registers_new_proxy _ _ _ _ _ _ _ _).2.2.2.1 (by decide)⟩,
   (create_session_registers_new_proxy (Pd_root.mk [3, 5] []) _ "ram_quota=4096" 8 ⟨1, 0⟩
      ⟨⟨10, 0⟩, ⟨20, 0⟩, ⟨[]⟩⟩ ⟨⟨11, 0⟩, ⟨21, 0⟩, ⟨[]⟩⟩ ⟨⟨12, 0⟩, ⟨22, 0⟩, ⟨[]⟩⟩).2.2.2.2.2 rfl⟩

theorem Pd_root.destroy_session_erases (self : Pd_root) (session : Nat) :
    (self._destroy_session session)._session_rpc_objs = self._session_rpc_objs.erase session := by
  simp [Pd_root._destroy_session, Pd_root.emit, Genode.List.remove]

theorem Rm_root.destroy_session_erases_info (self : Rm_root) (session : Nat) :
    (self._destroy_session session)._rms_infos =
      self._rms_infos.eraseP (fun info => session == info.rms) := by
  cases hf : find_from (fun info : Rm_session_info => session == info.rms) self._rms_infos 0 with
  | none =>
    have hnone := (find_from_eq_none _ _ _).mp hf
    simp only [Rm_root._destroy_session, Rm_session_info.find_by_ptr, first_then_find, hf,
      Rm_root.emit]
    rw [List.eraseP_of_forall_not]
    intro a ha
    simp [hnone a ha]
  | some i =>
    obtain ⟨k, hik, her, hk, -, -⟩ := find_from_eq_some _ _ _ _ hf
    have hi : i = k := by omega
    subst hi
    have hget : self._rms_infos.get? i = some (self._rms_infos.get ⟨i, hk⟩) :=
      List.get?_eq_get hk
    simp only [Rm_root._destroy_session, Rm_session_info.find_by_ptr, first_then_find, hf,
      Rm_root.emit, hget, Genode.List.remove, her]

theorem eraseP_eq_filter_of_nodup_keys {α : Type} (key : α → Nat) (a : Nat) (l : List α)
    (h : (l.map key).Nodup) :
    l.eraseP (fun x => a == key x) = l.filter (fun x => key x != a) := by
  induction l with
  | nil => rfl
  | cons x l ih =>
    rw [List.map_cons, List.nodup_cons] at h
    by_cases hx : a = key x
    · have hnot : ∀ y ∈ l, (key y != a) = true := by
        intro y hy
        have : key y ≠ key x := fun heq => h.1 (heq ▸ List.mem_map_of_mem key hy)
        simpa [hx] using this
      simp only [List.eraseP_cons, hx, beq_self_eq_true, cond_true, List.filter_cons,
        bne_self_eq_false, Bool.false_eq_true, if_false]
      rw [List.filter_eq_self.mpr]
      intro y hy
      simpa [hx] using hnot y hy
    · have h1 : (a == key x) = false := by simpa using hx
      have h2 : (key x != a) = true := by simpa using Ne.symm hx
      simp only [List.eraseP_cons, h1, cond_false, List.filter_cons, h2, if_true, ih h.2]

/-- The registries keep holding each session once: `_create_session` with the address
of a new session object and `_destroy_session` preserve it, for both roots. -/
theorem registry_holds_each_session_once (pd_root : Pd_root) (rm_root : Rm_root)
    (lib : Genode_util) (args : String) (new_session s : Nat) (cap : Capability)
    (address_space stack_area linker_area : Region_map_component)
    (hpd : pd_root._session_rpc_objs.Nodup)
    (hrm : (rm_root._rms_infos.map fun info => info.rms).Nodup) :
    ((new_session ∉ pd_root._session_rpc_objs →
        (pd_root._create_session lib args new_session cap address_space stack_area
          linker_area).2.2._session_rpc_objs.Nodup) ∧
      (pd_root._destroy_session s)._session_rpc_objs.Nodup) ∧
    (((∀ info ∈ rm_root._rms_infos, info.rms ≠ new_session) →
        ((rm_root._create_session args new_session).2._rms_infos.map
          fun info => info.rms).Nodup) ∧
      ((rm_root._destroy_session s)._rms_infos.map fun info => info.rms).Nodup) := by
  refine ⟨⟨?_, ?_⟩, ⟨?_, ?_⟩⟩
  · intro hnew
    exact List.nodup_cons.mpr ⟨hnew, hpd⟩
  · rw [Pd_root.destroy_session_erases]
    exact hpd.sublist (List.erase_sublist _ _)
  · intro hnew
    refine List.nodup_cons.mpr ⟨?_, hrm⟩
    intro hmem
    obtain ⟨info, hinfo, heq⟩ := List.mem_map.mp hmem
    exact hnew info hinfo heq
  · rw [Rm_root.destroy_session_erases_info]
    exact hrm.sublist ((List.eraseP_sublist _).map _)

/-- C13: on a registry that holds each session once, `_destroy_session(s)` of the Pd
root and of the Rm root leaves the registry without `s` and with all other
entries in their order; for a session that is not registered the registry stays
as it is, so destroying a session a second time does not change the registry of
the first time. -/
theorem destroy_session_unregisters (pd_root : Pd_root) (rm_root : Rm_root) (s : Nat)
    (hpd : pd_root._session_rpc_objs.Nodup)
    (hrm : (rm_root._rms_infos.map fun info => info.rms).Nodup) :
    ((pd_root._destroy_session s)._session_rpc_objs =
        pd_root._session_rpc_objs.filter (fun obj => obj != s) ∧
      s ∉ (pd_root._destroy_session s)._session_rpc_objs ∧
      (s ∉ pd_root._session_rpc_objs →
        (pd_root._destroy_session s)._session_rpc_objs = pd_root._session_rpc_objs) ∧
      ((pd_root._destroy_session s)._destroy_session s)._session_rpc_objs =
        (pd_root._destroy_session s)._session_rpc_objs) ∧
    ((rm_root._destroy_session s)._rms_infos =
        rm_root._rms_infos.filter (fun info => info.rms != s) ∧
      (∀ info ∈ (rm_root._destroy_session s)._rms_infos, info.rms ≠ s) ∧
      ((∀ info ∈ rm_root._rms_infos, info.rms ≠ s) →
        (rm_root._destroy_session s)._rms_infos = rm_root._rms_infos) ∧
      ((rm_root._destroy_session s)._destroy_session s)._rms_infos =
        (rm_root._destroy_session s)._rms_infos) := by
  have hpd1 : (pd_root._destroy_session s)._session_rpc_objs =
      pd_root._session_rpc_objs.filter (fun obj => obj != s) := by
    rw [Pd_root.destroy_session_erases, List.Nodup.erase_eq_filter hpd]
  have hrm1 : (rm_root._destroy_session s)._rms_infos =
      rm_root._rms_infos.filter (fun info => info.rms != s) := by
    rw [Rm_root.destroy_session_erases_info, eraseP_eq_filter_of_nodup_keys _ _ _ hrm]
  refine ⟨⟨hpd1, ?_, ?_, ?_⟩, ⟨hrm1, ?_, ?_, ?_⟩⟩
  · rw [hpd1]
    simp
  · intro hnot
    rw [Pd_root.destroy_session_erases, List.erase_of_not_mem hnot]
  · rw [Pd_root.destroy_session_erases, List.erase_of_not_mem]
    rw [hpd1]
    simp
  · intro info hinfo
    rw [hrm1] at hinfo
    simpa using (List.mem_filter.mp hinfo).2
  · intro hnot
    rw [Rm_root.destroy_session_erases_info, List.eraseP_of_forall_not]
    intro a ha
    simpa using Ne.symm (hnot a ha)
  · rw [Rm_root.destroy_session_erases_info (rm_root._destroy_session s),
      List.eraseP_of_forall_not]
    intro a ha
    rw [hrm1] at ha
    simpa using Ne.symm (by simpa using (List.mem_filter.mp ha).2 : a.rms ≠ s)

/-- Instance of `destroy_session_unregisters`: the session at address 5 in a Pd
registry of three sessions and in an Rm registry of two. -/
theorem destroy_session_unregisters_witness :
    ((Pd_root.mk [3, 5, 7] [])._session_rpc_objs.Nodup ∧
      ((Rm_root.mk [⟨5, ""⟩, ⟨9, ""⟩] [])._rms_infos.map fun info => info.rms).Nodup) ∧
    (((Pd_root.mk [3, 5, 7] [])._destroy_session 5)._session_rpc_objs =
        (Pd_root.mk [3, 5, 7] [])._session_rpc_objs.filter (fun obj => obj != 5) ∧
      5 ∉ ((Pd_root.mk [3, 5, 7] [])._destroy_session 5)._session_rpc_objs) ∧
    (((Rm_root.mk [⟨5, ""⟩, ⟨9, ""⟩] [])._destroy_session 5)._rms_infos =
        (Rm_root.mk [⟨5, ""⟩, ⟨9, ""⟩] [])._rms_infos.filter (fun info => info.rms != 5) ∧
      ∀ info ∈ ((Rm_root.mk [⟨5, ""⟩, ⟨9, ""⟩] [])._destroy_session 5)._rms_infos, info.rms ≠ 5) :=
  ⟨⟨by decide, by decide⟩,
   ⟨(destroy_session_unregisters (Pd_root.mk [3, 5, 7] []) (Rm_root.mk [⟨5, ""⟩, ⟨9, ""⟩] []) 5 (by decide) (by decide)).1.1,
    (destroy_session_unregisters (Pd_root.mk [3, 5, 7] []) (Rm_root.mk [⟨5, ""⟩, ⟨9, ""⟩] []) 5 (by decide) (by decide)).1.2.1⟩,
   ⟨(destroy_session_unregisters (Pd_root.mk [3, 5, 7] []) (Rm_root.mk [⟨5, ""⟩, ⟨9, ""⟩] []) 5 (by decide) (by decide)).2.1,
    (destroy_session_unregisters (Pd_root.mk [3, 5, 7] []) (Rm_root.mk [⟨5, ""⟩, ⟨9, ""⟩] []) 5 (by decide) (by decide)).2.2.1⟩⟩

theorem Pd_root.destructor_result (n : Nat) (self : Pd_root) :
    Pd_root.destructor (self._session_rpc_objs.length + 1 + n) self =
      some { _session_rpc_objs := []
             events := self.events ++
               self._session_rpc_objs.flatMap fun obj => [.remove obj, .destroy obj] } := by
  obtain ⟨objs, events⟩ := self
  induction objs generalizing events with
  | nil =>
    rw [show ([] : List Nat).length + 1 + n = n + 1 by simp; omega]
    simp [Pd_root.destructor]
  | cons obj objs ih =>
    have := ih (events ++ [.remove obj] ++ [.destroy obj])
    simp only [List.length_cons] at this ⊢
    rw [show objs.length + 1 + 1 + n = (objs.length + 1 + n) + 1 by omega]
    simp only [Pd_root.destructor, List.head?_cons, Pd_root.emit, Genode.List.remove,
      List.indexOf_cons_self, List.eraseIdx_cons_zero]
    rw [this]
    simp [List.flatMap_cons]

theorem Rm_root.destructor_result_infos (n : Nat) (self : Rm_root) :
    Rm_root.destructor (self._rms_infos.length + 1 + n) self =
      some { _rms_infos := []
             events := self.events ++
               self._rms_infos.flatMap fun info => [.remove info, .destroy_info info] } := by
  obtain ⟨infos, events⟩ := self
  induction infos generalizing events with
  | nil =>
    rw [show ([] : List Rm_session_info).length + 1 + n = n + 1 by simp; omega]
    simp [Rm_root.destructor]
  | cons info infos ih =>
    have := ih (events ++ [.remove info] ++ [.destroy_info info])
    simp only [List.length_cons] at this ⊢
    rw [show infos.length + 1 + 1 + n = (infos.length + 1 + n) + 1 by omega]
    simp only [Rm_root.destructor, Rm_root.emit, Genode.List.remove, List.eraseIdx_cons_zero]
    rw [this]
    simp [List.flatMap_cons]

/-- C20: for every registry the loop of `~Pd_root()`, and likewise of `~Rm_root()`,
ends after one more test of its condition than the registry has entries (more
fuel changes nothing), has then removed and destroyed every registered entry once,
in list order, and leaves the registry empty. -/
theorem root_destructor_empties_registry (pd_root : Pd_root) (rm_root : Rm_root) (n : Nat) :
    Pd_root.destructor (pd_root._session_rpc_objs.length + 1 + n) pd_root =
      some { _session_rpc_objs := []
             events := pd_root.events ++
               pd_root._session_rpc_objs.flatMap fun obj => [.remove obj, .destroy obj] } ∧
    Rm_root.destructor (rm_root._rms_infos.length + 1 + n) rm_root =
      some { _rms_infos := []
             events := rm_root.events ++
               rm_root._rms_infos.flatMap fun info => [.remove info, .destroy_info info] } :=
  ⟨Pd_root.destructor_result n pd_root, Rm_root.destructor_result_infos n rm_root⟩

/-! ## Teardown of the proxies -/

theorem Rm_session_component.destroy_infos (self : Rm_session_component) (cap : Capability) :
    (self.destroy cap)._region_map_infos =
      self._region_map_infos.eraseP (fun info => cap == info.region_map.cap) := by
  cases hf : find_from (fun info : Rm_session.Region_map_info => cap == info.region_map.cap)
      self._region_map_infos 0 with
  | none =>
    have hnone := (find_from_eq_none _ _ _).mp hf
    simp only [Rm_session_component.destroy, Rm_session.Region_map_info.find_by_cap,
      first_then_find, hf, Rm_session_component.emit]
    rw [List.eraseP_of_forall_not]
    intro a ha
    simp [hnone a ha]
  | some i =>
    obtain ⟨k, hik, her, hk, -, -⟩ := find_from_eq_some _ _ _ _ hf
    have hi : i = k := by omega
    subst hi
    have hget : self._region_map_infos.get? i = some (self._region_map_infos.get ⟨i, hk⟩) :=
      List.get?_eq_get hk
    simp only [Rm_session_component.destroy, Rm_session.Region_map_info.find_by_cap,
      first_then_find, hf, Rm_session_component.emit, hget, Genode.List.remove, her]

theorem Rm_session_component.destructor_ends (fuel : Nat) (self : Rm_session_component)
    (h : self._region_map_infos.length < fuel) :
    ∃ final, Rm_session_component.destructor fuel self = some final ∧
      final._region_map_infos = [] := by
  induction fuel generalizing self with
  | zero => omega
  | succ fuel ih =>
    obtain ⟨infos, events⟩ := self
    cases infos with
    | nil => exact ⟨_, rfl, rfl⟩
    | cons info infos =>
      simp only [Rm_session_component.destructor]
      apply ih
      rw [Rm_session_component.destroy_infos]
      simp only [Rm_session_component.emit, Genode.List.remove, List.eraseIdx_cons_zero]
      simp only [List.length_cons] at h
      have := List.length_eraseP_le (p := fun i : Rm_session.Region_map_info =>
        info.region_map.cap == i.region_map.cap) infos
      omega

/-- C14 (as amended): the destructor of the Pd session component leaves the component
as it is, it forwards no release and removes no entry; the loop of the destructor
of the Rm session component ends, for every list of region maps, after at most
one more test of its condition than the list has entries, and leaves the list
empty. -/
theorem proxy_teardown (pd : Pd_session_component) (rm : Rm_session_component) (n : Nat) :
    pd.destructor = pd ∧
    ∃ final, Rm_session_component.destructor (rm._region_map_infos.length + 1 + n) rm =
        some final ∧
      final._region_map_infos = [] :=
  ⟨rfl, Rm_session_component.destructor_ends _ rm (by omega)⟩

/-- C14, the claim as stated fails: a Pd session component torn down with one signal
source registered has made no call on the real service for it and still holds
the entry. -/
theorem pd_teardown_forwards_no_release :
    (((Pd_session_component.init ⟨1, 0⟩ ⟨⟨10, 0⟩, ⟨20, 0⟩, ⟨[]⟩⟩ ⟨⟨11, 0⟩, ⟨21, 0⟩, ⟨[]⟩⟩
        ⟨⟨12, 0⟩, ⟨22, 0⟩, ⟨[]⟩⟩).alloc_signal_source false
          (.returned ⟨7, 0⟩)).2.destructor)._parent_state.signal_sources =
      [⟨⟨7, 0⟩, false⟩] ∧
    (((Pd_session_component.init ⟨1, 0⟩ ⟨⟨10, 0⟩, ⟨20, 0⟩, ⟨[]⟩⟩ ⟨⟨11, 0⟩, ⟨21, 0⟩, ⟨[]⟩⟩
        ⟨⟨12, 0⟩, ⟨22, 0⟩, ⟨[]⟩⟩).alloc_signal_source false
          (.returned ⟨7, 0⟩)).2.destructor).events =
      [.forward .alloc_signal_source, .lock .signal_sources, .insert .signal_sources,
       .unlock .signal_sources] := by
  decide

/-- The destructor of the Rm session component on one region map created through
`create`: the list element is removed before `destroy` looks it up, so `destroy`
reports that no region map was found and makes no call on the real service. -/
theorem rm_teardown_misses_its_region_map :
    Rm_session_component.destructor 2
        ((Rm_session_component.mk [] []).create 4096 (.returned ⟨30, 0⟩) ⟨31, 0⟩).2 =
      some
        { _region_map_infos := []
          events :=
            [.forward_create 4096, .lock, .insert, .unlock,
             .remove, .lock, .lookup, .error, .unlock] } := by
  decide

/-! ## Region map attachments -/

theorem free_events_forward_locked (l : Ledger) (call : Pd_call) :
    spec_never_forwards_locked false [.lock l, .lookup l, .remove l, .forward call, .unlock l] =
      false := by
  simp [spec_never_forwards_locked]

theorem free_events_miss (l : Ledger) :
    spec_never_forwards_locked false [.lock l, .lookup l, .error, .unlock l] = true := by
  simp [spec_never_forwards_locked]

theorem alloc_events (l : Ledger) (call : Pd_call) :
    spec_never_forwards_locked false [.forward call, .lock l, .insert l, .unlock l] = true := by
  simp [spec_never_forwards_locked]

/-- C17 (as amended): every `alloc_*` method makes its call on the real service
first and holds the ledger lock across the insert only; every `free_*` method
takes the ledger lock before the lookup and holds it until it returns, so that no
call on the real service is made under the lock exactly when the handle is not
recorded: for a recorded handle the forwarded free is made while the lock is
held. -/
theorem lock_scope_of_alloc_and_free (self : Pd_session_component) (flag : Bool)
    (h source ep : Capability) (imprint : Nat) (answer : Outcome Capability) :
    ((∃ added, (self.alloc_signal_source flag answer).2.events = self.events ++ added ∧
        spec_never_forwards_locked false added = true) ∧
      (∃ added, (self.alloc_context flag source imprint answer).2.events = self.events ++ added ∧
        spec_never_forwards_locked false added = true) ∧
      (∃ added, (self.alloc_rpc_cap flag ep answer).2.events = self.events ++ added ∧
        spec_never_forwards_locked false added = true)) ∧
    ((∃ added, (self.free_signal_source h).events = self.events ++ added ∧
        (spec_never_forwards_locked false added = true ↔
          ∀ info ∈ self._parent_state.signal_sources, info.cap.local_name ≠ h.local_name)) ∧
      (∃ added, (self.free_context h).events = self.events ++ added ∧
        (spec_never_forwards_locked false added = true ↔
          ∀ info ∈ self._parent_state.signal_contexts, info.cap.local_name ≠ h.local_name)) ∧
      (∃ added, (self.free_rpc_cap h).events = self.events ++ added ∧
        (spec_never_forwards_locked false added = true ↔
          ∀ info ∈ self._parent_state.native_caps, info.cap.local_name ≠ h.local_name))) := by
  refine ⟨⟨?_, ?_, ?_⟩, ⟨?_, ?_, ?_⟩⟩
  · cases answer with
    | returned c =>
      rw [Pd_session_component.alloc_signal_source_returned]
      exact ⟨_, rfl, alloc_events _ _⟩
    | thrown e =>
      rw [Pd_session_component.alloc_signal_source_thrown]
      exact ⟨_, rfl, by simp [spec_never_forwards_locked]⟩
  · cases answer with
    | returned c =>
      rw [Pd_session_component.alloc_context_returned]
      exact ⟨_, rfl, alloc_events _ _⟩
    | thrown e =>
      rw [Pd_session_component.alloc_context_thrown]
      exact ⟨_, rfl, by simp [spec_never_forwards_locked]⟩
  · cases answer with
    | returned c =>
      rw [Pd_session_component.alloc_rpc_cap_returned]
      exact ⟨_, rfl, alloc_events _ _⟩
    | thrown e =>
      rw [Pd_session_component.alloc_rpc_cap_thrown]
      exact ⟨_, rfl, by simp [spec_never_forwards_locked]⟩
  · by_cases hex : ∃ info ∈ self._parent_state.signal_sources,
        (h.local_name == info.cap.local_name) = true
    · rw [Pd_session_component.free_signal_source_hit self h hex]
      refine ⟨_, rfl, ?_⟩
      rw [free_events_forward_locked]
      obtain ⟨info, hmem, hb⟩ := hex
      constructor
      · intro hf
        cases hf
      · intro hall
        exact absurd (by simpa using hb : h.local_name = info.cap.local_name)
          (Ne.symm (hall info hmem))
    · have hm : ∀ info ∈ self._parent_state.signal_sources,
          (h.local_name == info.cap.local_name) = false := by
        intro info hmem
        cases hb : (h.local_name == info.cap.local_name)
        · rfl
        · exact absurd ⟨info, hmem, hb⟩ hex
      rw [Pd_session_component.free_signal_source_miss self h hm]
      refine ⟨_, rfl, ?_⟩
      rw [free_events_miss]
      simp only [true_iff]
      intro info hmem
      exact Ne.symm (by simpa using hm info hmem)
  · by_cases hex : ∃ info ∈ self._parent_state.signal_contexts,
        (h.local_name == info.cap.local_name) = true
    · rw [Pd_session_component.free_context_hit self h hex]
      refine ⟨_, rfl, ?_⟩
      rw [free_events_forward_locked]
      obtain ⟨info, hmem, hb⟩ := hex
      constructor
      · intro hf
        cases hf
      · intro hall
        exact absurd (by simpa using hb : h.local_name = info.cap.local_name)
          (Ne.symm (hall info hmem))
    · have hm : ∀ info ∈ self._parent_state.signal_contexts,
          (h.local_name == info.cap.local_name) = false := by
        intro info hmem
        cases hb : (h.local_name == info.cap.local_name)
        · rfl
        · exact absurd ⟨info, hmem, hb⟩ hex
      rw [Pd_session_component.free_context_miss self h hm]
      refine ⟨_, rfl, ?_⟩
      rw [free_events_miss]
      simp only [true_iff]
      intro info hmem
      exact Ne.symm (by simpa using hm info hmem)
  · by_cases hex : ∃ info ∈ self._parent_state.native_caps,
        (h.local_name == info.cap.local_name) = true
    · rw [Pd_session_component.free_rpc_cap_hit self h hex]
      refine ⟨_, rfl, ?_⟩
      rw [free_events_forward_locked]
      obtain ⟨info, hmem, hb⟩ := hex
      constructor
      · intro hf
        cases hf
      · intro hall
        exact absurd (by simpa using hb : h.local_name = info.cap.local_name)
          (Ne.symm (hall info hmem))
    · have hm : ∀ info ∈ self._parent_state.native_caps,
          (h.local_name == info.cap.local_name) = false := by
        intro info hmem
        cases hb : (h.local_name == info.cap.local_name)
        · rfl
        · exact absurd ⟨info, hmem, hb⟩ hex
      rw [Pd_session_component.free_rpc_cap_miss self h hm]
      refine ⟨_, rfl, ?_⟩
      rw [free_events_miss]
      simp only [true_iff]
      intro info hmem
      exact Ne.symm (by simpa using hm info hmem)

/-- C17, the claim as stated fails: `free_signal_source` of a recorded handle makes
its call on the real service between taking and releasing the lock of the
signal-source ledger. -/
theorem free_forwards_under_lock :
    (((Pd_session_component.init ⟨1, 0⟩ ⟨⟨10, 0⟩, ⟨20, 0⟩, ⟨[]⟩⟩ ⟨⟨11, 0⟩, ⟨21, 0⟩, ⟨[]⟩⟩
        ⟨⟨12, 0⟩, ⟨22, 0⟩, ⟨[]⟩⟩).alloc_signal_source false
          (.returned ⟨7, 0⟩)).2.free_signal_source ⟨7, 0⟩).events =
      [.forward .alloc_signal_source, .lock .signal_sources, .insert .signal_sources,
       .unlock .signal_sources,
       .lock .signal_sources, .lookup .signal_sources, .remove .signal_sources,
       .forward (.free_signal_source ⟨7, 0⟩), .unlock .signal_sources] ∧
    spec_never_forwards_locked false
      (((Pd_session_component.init ⟨1, 0⟩ ⟨⟨10, 0⟩, ⟨20, 0⟩, ⟨[]⟩⟩ ⟨⟨11, 0⟩, ⟨21, 0⟩, ⟨[]⟩⟩
        ⟨⟨12, 0⟩, ⟨22, 0⟩, ⟨[]⟩⟩).alloc_signal_source false
          (.returned ⟨7, 0⟩)).2.free_signal_source ⟨7, 0⟩).events = false := by
  decide

/-! ## Lookups -/

/-- C18, the code at the failing inputs: with the attachment `[4096, 8192)` in front
of the attachment `[8192, 12288)`, `find_by_addr(8192)` returns the first one,
whose range ends at 8192, where the first entry whose half-open range contains
8192 is the second; and with the first attachment alone it returns that entry
where no range contains the address. -/
theorem find_by_addr_accepts_end_of_range :
    Stored_attached_region_info.find_by_addr 32
        [Stored_attached_region_info.create ⟨⟨5, 0⟩, 4096, 0, 4096, false, false⟩ 0 ⟨6, 0⟩,
         Stored_attached_region_info.create ⟨⟨7, 0⟩, 4096, 0, 8192, false, false⟩ 0 ⟨8, 0⟩]
        0 8192 = some 0 ∧
    spec_first_in_range
        [Stored_attached_region_info.create ⟨⟨5, 0⟩, 4096, 0, 4096, false, false⟩ 0 ⟨6, 0⟩,
         Stored_attached_region_info.create ⟨⟨7, 0⟩, 4096, 0, 8192, false, false⟩ 0 ⟨8, 0⟩]
        8192 = some 1 ∧
    Stored_attached_region_info.find_by_addr 32
        [Stored_attached_region_info.create ⟨⟨5, 0⟩, 4096, 0, 4096, false, false⟩ 0 ⟨6, 0⟩]
        0 8192 = some 0 ∧
    spec_first_in_range
        [Stored_attached_region_info.create ⟨⟨5, 0⟩, 4096, 0, 4096, false, false⟩ 0 ⟨6, 0⟩]
        8192 = none := by
  decide

/-- C19: for every list of sessions and every 16 bit badge, `find_by_badge`, called on
a session with its successors `l`, returns the first session of `l` whose
capability has the badge as local name: a result is the position of a session
with that local name before which no session of `l` has it, and the result is
null exactly when no session of `l` has it.  `find_by_cap` of the region map
list elements does the same for the capability of the region map. -/
theorem find_by_badge_returns_first_match (l : List Pd_session_component) (pos badge : Nat)
    (infos : List Rm_session.Region_map_info) (cap : Capability) (hbadge : badge < 65536) :
    ((∀ i, Pd_session_component.find_by_badge l pos badge = some i →
        ∃ k, i = pos + k ∧ ∃ hk : k < l.length,
          (l.get ⟨k, hk⟩).cap.local_name = badge ∧
          ∀ j (hj : j < l.length), j < k → (l.get ⟨j, hj⟩).cap.local_name ≠ badge) ∧
      (Pd_session_component.find_by_badge l pos badge = none ↔
        ∀ obj ∈ l, obj.cap.local_name ≠ badge)) ∧
    ((∀ i, Rm_session.Region_map_info.find_by_cap infos pos cap = some i →
        ∃ k, i = pos + k ∧ ∃ hk : k < infos.length,
          (infos.get ⟨k, hk⟩).region_map.cap = cap ∧
          ∀ j (hj : j < infos.length), j < k → (infos.get ⟨j, hj⟩).region_map.cap ≠ cap) ∧
      (Rm_session.Region_map_info.find_by_cap infos pos cap = none ↔
        ∀ info ∈ infos, info.region_map.cap ≠ cap)) := by
  have hmod : badge % 65536 = badge := Nat.mod_eq_of_lt hbadge
  refine ⟨⟨?_, ?_⟩, ⟨?_, ?_⟩⟩
  · intro i hi
    obtain ⟨k, hik, -, hk, hhit, hbefore⟩ := find_from_eq_some _ _ _ _ hi
    refine ⟨k, hik, hk, ?_, ?_⟩
    · simp only [hmod, beq_iff_eq] at hhit
      exact hhit.symm
    · intro j hj hlt
      have := hbefore j hj hlt
      simp only [hmod, beq_eq_false_iff_ne, ne_eq] at this
      exact fun heq => this heq.symm
  · rw [Pd_session_component.find_by_badge, find_from_eq_none]
    simp only [hmod, beq_eq_false_iff_ne, ne_eq]
    exact ⟨fun hall obj hobj heq => hall obj hobj heq.symm,
      fun hall obj hobj heq => hall obj hobj heq.symm⟩
  · intro i hi
    obtain ⟨k, hik, -, hk, hhit, hbefore⟩ := find_from_eq_some _ _ _ _ hi
    refine ⟨k, hik, hk, ?_, ?_⟩
    · simp only [beq_iff_eq] at hhit
      exact hhit.symm
    · intro j hj hlt
      have := hbefore j hj hlt
      simp only [beq_eq_false_iff_ne, ne_eq] at this
      exact fun heq => this heq.symm
  · rw [Rm_session.Region_map_info.find_by_cap, find_from_eq_none]
    simp only [beq_eq_false_iff_ne, ne_eq]
    exact ⟨fun hall obj hobj heq => hall obj hobj heq.symm,
      fun hall obj hobj heq => hall obj hobj heq.symm⟩

/-- Instance of `find_by_badge_returns_first_match`: the badge 7 among three sessions
with the local names 3, 7 and 7, the walk starting at the first of them. -/
theorem find_by_badge_returns_first_match_witness :
    (7 < 65536) ∧
    (Pd_session_component.find_by_badge
        [Pd_session_component.init ⟨3, 0⟩ ⟨⟨10, 0⟩, ⟨20, 0⟩, ⟨[]⟩⟩ ⟨⟨11, 0⟩, ⟨21, 0⟩, ⟨[]⟩⟩
          ⟨⟨12, 0⟩, ⟨22, 0⟩, ⟨[]⟩⟩,
         Pd_session_component.init ⟨7, 0⟩ ⟨⟨13, 0⟩, ⟨23, 0⟩, ⟨[]⟩⟩ ⟨⟨14, 0⟩, ⟨24, 0⟩, ⟨[]⟩⟩
          ⟨⟨15, 0⟩, ⟨25, 0⟩, ⟨[]⟩⟩,
         Pd_session_component.init ⟨7, 1⟩ ⟨⟨16, 0⟩, ⟨26, 0⟩, ⟨[]⟩⟩ ⟨⟨17, 0⟩, ⟨27, 0⟩, ⟨[]⟩⟩
          ⟨⟨18, 0⟩, ⟨28, 0⟩, ⟨[]⟩⟩]
        0 7 = none ↔
      ∀ obj ∈
        [Pd_session_component.init ⟨3, 0⟩ ⟨⟨10, 0⟩, ⟨20, 0⟩, ⟨[]⟩⟩ ⟨⟨11, 0⟩, ⟨21, 0⟩, ⟨[]⟩⟩
          ⟨⟨12, 0⟩, ⟨22, 0⟩, ⟨[]⟩⟩,
         Pd_session_component.init ⟨7, 0⟩ ⟨⟨13, 0⟩, ⟨23, 0⟩, ⟨[]⟩⟩ ⟨⟨14, 0⟩, ⟨24, 0⟩, ⟨[]⟩⟩
          ⟨⟨15, 0⟩, ⟨25, 0⟩, ⟨[]⟩⟩,
         Pd_session_component.init ⟨7, 1⟩ ⟨⟨16, 0⟩, ⟨26, 0⟩, ⟨[]⟩⟩ ⟨⟨17, 0⟩, ⟨27, 0⟩, ⟨[]⟩⟩
          ⟨⟨18, 0⟩, ⟨28, 0⟩, ⟨[]⟩⟩],
        obj.cap.local_name ≠ ((7 : Nat) : Int)) :=
  ⟨by decide, (find_by_badge_returns_first_match _ 0 7 [] ⟨0, 0⟩ (by decide)).1.2⟩

end Rtcr
